import Mathlib

/-!
Verification development for the pawcast mood engine
(src/backend/services/mood_engine.py and its data model in
src/backend/services/weather_service.py).

Modelling conventions:
* Python floats are modelled as rationals (ℚ); all engine arithmetic is
  +, -, *, /, min, max and comparisons, which ℚ reflects exactly.
* Timezone-aware instants (datetime) are modelled as integers (Int): the
  engine only compares them (sunrise <= t <= sunset) and echoes them back.
  The tzinfo alignment in _is_daylight is the identity in this model.
* The min()/max() builtins of Python raise ValueError on an empty
  sequence; the range helpers therefore return Option, none standing for
  that raised ValueError.
* pick_walk_window can raise ValueError (unknown mood, or min()/max() on
  an empty batch); it is modelled as Except EngineError Response.
* random.choice over the fallback pool is modelled by an explicit index
  parameter (choice), read modulo the pool size.
* The canned mood texts (mood_content.py) never influence scoring or
  selection; format_texts is modelled as producing tagged placeholder
  strings, and the sarcastic condition commentary is kept as a small
  inductive (Commentary) instead of a formatted string, since no claim
  depends on the rendered text, only on which note is chosen.
-/

/-- One forecast hour (dataclass HourlyWeather of weather_service.py). -/
structure HourlyWeather where
  dt : Int
  temp : ℚ
  wind_speed : ℚ
  rain_prob : ℚ
  cloud_cover : ℚ
  uv_index : ℚ
  description : String
deriving DecidableEq, Repr

/-- Sunrise and sunset instants (dataclass SunTimes of weather_service.py). -/
structure SunTimes where
  sunrise : Int
  sunset : Int
deriving DecidableEq, Repr

/-- Hard safety limit UNSAFE_WIND_MS = 18 (gale force). -/
def WIND_LIMIT_MS : ℚ := 18

/-- Hard safety limit UNSAFE_RAIN_PCT = 95 (essentially a storm). -/
def RAIN_LIMIT_PCT : ℚ := 95

/-- Hard safety limit UNSAFE_TEMP_MIN = -30 (extreme cold). -/
def TEMP_LIMIT_MIN : ℚ := -30

/-- Safety filter of the engine: false if conditions are dangerous
regardless of mood. -/
def _is_safe (h : HourlyWeather) : Bool :=
  h.wind_speed < WIND_LIMIT_MS && h.rain_prob < RAIN_LIMIT_PCT
    && h.temp > TEMP_LIMIT_MIN

/-- The two-argument min builtin of Python, written out so that closed
terms evaluate by kernel reduction. -/
def pyMin (a b : ℚ) : ℚ := if a ≤ b then a else b

/-- The two-argument max builtin of Python, written out so that closed
terms evaluate by kernel reduction. -/
def pyMax (a b : ℚ) : ℚ := if b ≤ a then a else b

/-- The abs builtin of Python, written out so that closed terms evaluate
by kernel reduction. -/
def pyAbs (a : ℚ) : ℚ := if a < 0 then -a else a

/-- The min builtin of Python over a list; none models the ValueError
raised on an empty sequence. -/
def listMin : List ℚ → Option ℚ
  | [] => none
  | x :: xs => some (xs.foldl pyMin x)

/-- The max builtin of Python over a list; none models the ValueError
raised on an empty sequence. -/
def listMax : List ℚ → Option ℚ
  | [] => none
  | x :: xs => some (xs.foldl pyMax x)

/-- _temp_range: (min, max) of the temperatures of the batch. -/
def _temp_range (hours : List HourlyWeather) : Option (ℚ × ℚ) :=
  match listMin (hours.map (·.temp)), listMax (hours.map (·.temp)) with
  | some lo, some hi => some (lo, hi)
  | _, _ => none

/-- _wind_range: (min, max) of the wind speeds of the batch. -/
def _wind_range (hours : List HourlyWeather) : Option (ℚ × ℚ) :=
  match listMin (hours.map (·.wind_speed)), listMax (hours.map (·.wind_speed)) with
  | some lo, some hi => some (lo, hi)
  | _, _ => none

/-- _rain_range: (min, max) of the rain probabilities of the batch. -/
def _rain_range (hours : List HourlyWeather) : Option (ℚ × ℚ) :=
  match listMin (hours.map (·.rain_prob)), listMax (hours.map (·.rain_prob)) with
  | some lo, some hi => some (lo, hi)
  | _, _ => none

/-- _relative_position: where val sits in [lo, hi], clamped to [0, 1];
0.5 if the range is flat. -/
def _relative_position (val lo hi : ℚ) : ℚ :=
  if hi = lo then 0.5
  else pyMax 0 (pyMin 1 ((val - lo) / (hi - lo)))

/-- _is_daylight: the timestamp falls within [sunrise, sunset] inclusive. -/
def _is_daylight (hour : HourlyWeather) (sun : SunTimes) : Bool :=
  sun.sunrise ≤ hour.dt && hour.dt ≤ sun.sunset

/-- Which sarcastic weather note _condition_commentary picks (the source
formats it into a string; the constructors carry the numbers shown). -/
inductive Commentary where
  | frozenGround (temp : ℚ)
  | belowZero (temp : ℚ)
  | highWind (wind : ℚ)
  | heavyRain
  | noNote
deriving DecidableEq, Repr

/-- _condition_commentary: first-matching extreme-condition note. -/
def _condition_commentary (temp wind rain : ℚ) : Commentary :=
  if temp < -10 then .frozenGround temp
  else if temp < 0 then .belowZero temp
  else if wind > 12 then .highWind wind
  else if rain > 80 then .heavyRain
  else .noNote

/-- Scorer for Low Battery Human: warmest, brightest, calmest window;
daylight mandatory. -/
def _score_low_battery_human (h : HourlyWeather) (sun : SunTimes)
    (tlo thi wlo whi rlo rhi : ℚ) : ℚ :=
  if !(_is_daylight h sun) then 0
  else
    let score : ℚ := 100
    let temp_pos := _relative_position h.temp tlo thi
    let score := score + temp_pos * 25
    let rain_pos := _relative_position h.rain_prob rlo rhi
    let score := score - rain_pos * 35
    let wind_pos := _relative_position h.wind_speed wlo whi
    let score := score - wind_pos * 20
    let score :=
      if h.cloud_cover < 30 then score + 15
      else if h.cloud_cover > 80 then score - 15
      else score
    pyMax 0 score

/-- Scorer for Posture Emergency: dry, calm, comfortable; daylight
mandatory; temperature sweet spot at the 60th percentile. -/
def _score_posture_emergency (h : HourlyWeather) (sun : SunTimes)
    (tlo thi wlo whi rlo rhi : ℚ) : ℚ :=
  if !(_is_daylight h sun) then 0
  else
    let score : ℚ := 100
    let temp_pos := _relative_position h.temp tlo thi
    let score := score - pyAbs (temp_pos - 0.6) * 30
    let rain_pos := _relative_position h.rain_prob rlo rhi
    let score := score - rain_pos * 40
    let wind_pos := _relative_position h.wind_speed wlo whi
    let score := score - wind_pos * 20
    pyMax 0 score

/-- Scorer for Doomscroll Detox: mild middle of the range, soft daylight
penalty, only heavy rain penalised. -/
def _score_doomscroll_detox (h : HourlyWeather) (sun : SunTimes)
    (tlo thi wlo whi rlo rhi : ℚ) : ℚ :=
  let score : ℚ := 100
  let score := if !(_is_daylight h sun) then score - 25 else score
  let temp_pos := _relative_position h.temp tlo thi
  let score := score - pyAbs (temp_pos - 0.5) * 25
  let rain_pos := _relative_position h.rain_prob rlo rhi
  let score := if rain_pos > 0.7 then score - (rain_pos - 0.7) * 40 else score
  let wind_pos := _relative_position h.wind_speed wlo whi
  let score := score - wind_pos * 20
  pyMax 0 score

/-- Scorer for Burnout Recovery: cooler side of the range, gentle breeze,
partial cloud bonus; clamped to [0, 110]. -/
def _score_burnout_recovery (h : HourlyWeather) (sun : SunTimes)
    (tlo thi wlo whi rlo rhi : ℚ) : ℚ :=
  let score : ℚ := 100
  let score := if !(_is_daylight h sun) then score - 20 else score
  let temp_pos := _relative_position h.temp tlo thi
  let score := score - pyAbs (temp_pos - 0.35) * 25
  let wind_pos := _relative_position h.wind_speed wlo whi
  let score :=
    if wind_pos < 0.1 then score - 10
    else if wind_pos > 0.7 then score - 25
    else score
  let rain_pos := _relative_position h.rain_prob rlo rhi
  let score := score - rain_pos * 25
  let score :=
    if 30 ≤ h.cloud_cover ∧ h.cloud_cover ≤ 75 then score + 12 else score
  pyMax 0 (pyMin 110 score)

/-- Scorer for Long Term Health Investment: moderate everything; absolute
UV greater than 7 penalised. -/
def _score_long_term_health (h : HourlyWeather) (sun : SunTimes)
    (tlo thi wlo whi rlo rhi : ℚ) : ℚ :=
  let score : ℚ := 100
  let temp_pos := _relative_position h.temp tlo thi
  let score := score - pyAbs (temp_pos - 0.45) * 30
  let wind_pos := _relative_position h.wind_speed wlo whi
  let score := score - wind_pos * 20
  let rain_pos := _relative_position h.rain_prob rlo rhi
  let score := score - rain_pos * 30
  let score := if h.uv_index > 7 then score - 20 else score
  pyMax 0 score

/-- Scorer for Natural Hygiene Intervention: wettest window of the day;
starts from 0; zero if the hour is unsafe. -/
def _score_hygiene_intervention (h : HourlyWeather) (sun : SunTimes)
    (tlo thi wlo whi rlo rhi : ℚ) : ℚ :=
  let score : ℚ := 0
  let rain_pos := _relative_position h.rain_prob rlo rhi
  let score := score + rain_pos * 60
  let cloud_bonus := _relative_position h.cloud_cover 0 100
  let score := score + cloud_bonus * 20
  let wind_pos := _relative_position h.wind_speed wlo whi
  let score := if 0.2 < wind_pos ∧ wind_pos < 0.6 then score + 10 else score
  if !(_is_safe h) then 0
  else pyMax 0 (pyMin 100 score)

/-- Scorer for Character Development Arc: windiest, coldest, wettest,
bleakest safe hour; starts from 0; zero if the hour is unsafe. -/
def _score_character_development (h : HourlyWeather) (sun : SunTimes)
    (tlo thi wlo whi rlo rhi : ℚ) : ℚ :=
  let score : ℚ := 0
  let wind_pos := _relative_position h.wind_speed wlo whi
  let score := score + wind_pos * 35
  let temp_pos := _relative_position h.temp tlo thi
  let score := score + (1 - temp_pos) * 30
  let rain_pos := _relative_position h.rain_prob rlo rhi
  let score := score + rain_pos * 25
  let cloud_pos := _relative_position h.cloud_cover 0 100
  let score := score + cloud_pos * 10
  if !(_is_safe h) then 0
  else pyMax 0 (pyMin 100 score)

/-- The type of a mood scorer. -/
def Scorer : Type :=
  HourlyWeather → SunTimes → ℚ → ℚ → ℚ → ℚ → ℚ → ℚ → ℚ

/-- The seven registered mood identifiers, in registry order. -/
def MOOD_NAMES : List String :=
  ["low_battery", "posture_emergency", "doomscroll_detox",
   "burnout_recovery", "long_term_health", "hygiene_intervention",
   "character_development"]

/-- The DIAGNOSTIC_MOODS registry: dict.get, returning none for an
unregistered mood identifier. -/
def DIAGNOSTIC_MOODS : String → Option Scorer
  | "low_battery" => some _score_low_battery_human
  | "posture_emergency" => some _score_posture_emergency
  | "doomscroll_detox" => some _score_doomscroll_detox
  | "burnout_recovery" => some _score_burnout_recovery
  | "long_term_health" => some _score_long_term_health
  | "hygiene_intervention" => some _score_hygiene_intervention
  | "character_development" => some _score_character_development
  | _ => none

/-- The fallback message pool (_DIAGNOSTIC_FALLBACKS). -/
def _DIAGNOSTIC_FALLBACKS : List String :=
  ["Checked the forecast. Nature is being uncooperative. Try again tomorrow or lower your standards.",
   "Weather is mid. No optimal window detected. Your human will just have to suffer inside.",
   "Nothing meets the criteria. The sky is giving nothing. Literally.",
   "Forecast reviewed. Conditions are aggressively average. Walk at your own risk."]

/-- One scored candidate (dataclass ScoredWindow). The idx field records
the position of the hour in the forecast batch; the source keeps the hour
object itself, whose identity plays the same role. -/
structure ScoredWindow where
  idx : Nat
  hour : HourlyWeather
  score : ℚ
deriving DecidableEq, Repr

/-- The mood text triple produced by format_texts of mood_content.py.
The texts are canned strings with the human name substituted in; they
never influence scoring or selection, so they are modelled as tagged
placeholders rather than the full catalog prose. -/
structure MoodTexts where
  diagnosis : String
  prescription : String
  experts_recommend : String
deriving DecidableEq, Repr

/-- format_texts (mood_content.py), modelled with placeholder text bodies;
the {human} placeholder is substituted with name plus relationship. -/
def format_texts (mood_name human_name relationship : String) : MoodTexts :=
  { diagnosis := mood_name ++ ".diagnosis " ++ human_name ++ " (your "
      ++ relationship ++ ")",
    prescription := mood_name ++ ".prescription",
    experts_recommend := mood_name ++ ".experts_recommend" }

/-- The diagnosis field of a response: either a message drawn from the
fallback pool, or the condition-commentary note prepended to the mood
diagnosis text (the source concatenates the rendered note and the text
into one string; the pair is kept since no claim reads the concatenation). -/
inductive Diagnosis where
  | fallbackMsg (msg : String)
  | scored (note : Commentary) (text : String)
deriving DecidableEq, Repr

/-- The rounded weather sub-dict of a response. -/
structure WeatherOut where
  temp : ℚ
  wind : ℚ
  rain_probability : ℚ
  cloud_cover : ℚ
  uv_index : ℚ
deriving DecidableEq, Repr

/-- The response dict of pick_walk_window. recommended_time holds the
timestamp of the chosen hour (the source renders it as HH:MM-HH:59);
none models the literal "N/A" of the fallback response. -/
structure Response where
  mood : String
  recommended_time : Option Int
  diagnosis : Diagnosis
  prescription : String
  experts_recommend : String
  weather : WeatherOut
  dog_name : String
  human_name : String
  human_relationship : String
deriving DecidableEq, Repr

/-- A response is the fallback response exactly when it carries no
recommended time (rendered "N/A" by the source). -/
def Response.isFallback (r : Response) : Bool :=
  r.recommended_time.isNone

/-- Rounding of Python (round half to even), on rationals. -/
def roundHalfEven (q : ℚ) : Int :=
  let f := ⌊q⌋
  let r := q - f
  if r < 0.5 then f
  else if 0.5 < r then f + 1
  else if f % 2 = 0 then f else f + 1

/-- round(x, 1) of Python. -/
def pyRound1 (q : ℚ) : ℚ := (roundHalfEven (q * 10) : ℚ) / 10

/-- round(x) of Python. -/
def pyRound0 (q : ℚ) : ℚ := (roundHalfEven q : ℚ)

/-- The ways pick_walk_window raises ValueError: an unknown mood
identifier (explicit raise), or min()/max() applied to an empty forecast
batch inside the range helpers. -/
inductive EngineError where
  | unknownMood (name : String)
  | emptySeq
deriving DecidableEq, Repr

/-- _fallback_response: sarcastic response with no recommended time and a
zeroed weather snapshot; the message is random.choice over the pool,
modelled by the explicit choice index. -/
def _fallback_response (mood_name dog_name human_name relationship : String)
    (fallbacks : List String) (choice : Nat) : Response :=
  { mood := mood_name,
    recommended_time := none,
    diagnosis := .fallbackMsg (fallbacks.getD (choice % fallbacks.length) ""),
    prescription := "Try again tomorrow. Or just open a window and point at it.",
    experts_recommend := "Hydration. Rest. Lower expectations.",
    weather := { temp := 0, wind := 0, rain_probability := 0,
                 cloud_cover := 0, uv_index := 0 },
    dog_name := dog_name,
    human_name := human_name,
    human_relationship := relationship }

/-- The scoring loop of pick_walk_window, with the position of each hour
in the batch tracked explicitly (parameter i is the position of the head
of the remaining list): every safe hour paired with its scorer value;
unsafe hours are skipped. -/
def scoreSafeHoursFrom (scorer : Scorer) (sun : SunTimes)
    (tlo thi wlo whi rlo rhi : ℚ) : Nat → List HourlyWeather → List ScoredWindow
  | _, [] => []
  | i, h :: rest =>
      if _is_safe h then
        ⟨i, h, scorer h sun tlo thi wlo whi rlo rhi⟩ ::
          scoreSafeHoursFrom scorer sun tlo thi wlo whi rlo rhi (i + 1) rest
      else scoreSafeHoursFrom scorer sun tlo thi wlo whi rlo rhi (i + 1) rest

/-- The scoring loop of pick_walk_window over the whole batch. -/
def scoreSafeHours (scorer : Scorer) (hours : List HourlyWeather)
    (sun : SunTimes) (tlo thi wlo whi rlo rhi : ℚ) : List ScoredWindow :=
  scoreSafeHoursFrom scorer sun tlo thi wlo whi rlo rhi 0 hours

/-- The selection step of pick_walk_window. The source sorts the scored
list descending by score with the stable sort of Python (reverse=True
keeps equal keys in original order) and takes the head; the head of that
sort is the first element attaining the maximal score, computed here
directly by a first-wins fold. -/
def bestStep (acc x : ScoredWindow) : ScoredWindow :=
  if acc.score < x.score then x else acc

def chooseBest : List ScoredWindow → Option ScoredWindow
  | [] => none
  | sw :: rest => some (rest.foldl bestStep sw)

/-- The safe-and-scored candidate list that pick_walk_window builds for a
mood name, with the ranges of the full batch; empty when the mood is
unknown or the batch is empty (those paths raise before scoring). -/
def safeScored (mood_name : String) (hours : List HourlyWeather)
    (sun : SunTimes) : List ScoredWindow :=
  match DIAGNOSTIC_MOODS mood_name, _temp_range hours, _wind_range hours,
      _rain_range hours with
  | some scorer, some (tlo, thi), some (wlo, whi), some (rlo, rhi) =>
      scoreSafeHours scorer hours sun tlo thi wlo whi rlo rhi
  | _, _, _, _ => []

/-- The window the engine selects for a mood name: the first-wins maximum
of the safe scored candidates. -/
def selectedWindow (mood_name : String) (hours : List HourlyWeather)
    (sun : SunTimes) : Option ScoredWindow :=
  chooseBest (safeScored mood_name hours sun)

/-- The non-fallback response built from the chosen hour. -/
def buildResponse (mood_name : String) (h : HourlyWeather)
    (dog_name human_name relationship : String) : Response :=
  { mood := mood_name,
    recommended_time := some h.dt,
    diagnosis := .scored
      (_condition_commentary h.temp h.wind_speed h.rain_prob)
      (format_texts mood_name human_name relationship).diagnosis,
    prescription := (format_texts mood_name human_name relationship).prescription,
    experts_recommend :=
      (format_texts mood_name human_name relationship).experts_recommend,
    weather := { temp := pyRound1 h.temp,
                 wind := pyRound1 h.wind_speed,
                 rain_probability := pyRound0 h.rain_prob,
                 cloud_cover := pyRound0 h.cloud_cover,
                 uv_index := pyRound1 h.uv_index },
    dog_name := dog_name,
    human_name := human_name,
    human_relationship := relationship }

/-- pick_walk_window: resolve the scorer (unknown mood raises), compute
the ranges of the full batch (empty batch raises from min()), score the
safe hours, pick the highest scorer with first-wins tie-break, fall back
when nothing was scored or the best score is below 10. -/
def pick_walk_window (mood_name : String) (hours : List HourlyWeather)
    (sun : SunTimes) (dog_name human_name relationship : String)
    (choice : Nat) : Except EngineError Response :=
  match DIAGNOSTIC_MOODS mood_name with
  | none => .error (.unknownMood mood_name)
  | some _ =>
    match _temp_range hours, _wind_range hours, _rain_range hours with
    | some _, some _, some _ =>
      match selectedWindow mood_name hours sun with
      | none =>
          .ok (_fallback_response mood_name dog_name human_name relationship
            _DIAGNOSTIC_FALLBACKS choice)
      | some best =>
          if best.score < 10 then
            .ok (_fallback_response mood_name dog_name human_name relationship
              _DIAGNOSTIC_FALLBACKS choice)
          else
            .ok (buildResponse mood_name best.hour dog_name human_name
              relationship)
    | _, _, _ => .error .emptySeq

/-- The recommended time of a pick_walk_window call that did not raise;
none both for a raised error and for the fallback response. -/
def selTime (e : Except EngineError Response) : Option Int :=
  match e with
  | .ok r => r.recommended_time
  | .error _ => none

/-- The batch transformation of the climate-invariance property: every
temperature shifted by a constant offset, all other fields unchanged. -/
def shiftHours (c : ℚ) (hours : List HourlyWeather) : List HourlyWeather :=
  hours.map fun h => { h with temp := h.temp + c }

/-- A mid-day sun window shared by the concrete scenarios below. -/
def sun0 : SunTimes := { sunrise := 8, sunset := 18 }

/-- Scenario hour for the climate-invariance counterexample: the colder
of two safe hours, close to the absolute cold limit. -/
def C5hourA : HourlyWeather :=
  { dt := 10, temp := -25, wind_speed := 5, rain_prob := 50,
    cloud_cover := 0, uv_index := 1, description := "clear" }

/-- Scenario hour for the climate-invariance counterexample: the milder
of two safe hours. -/
def C5hourB : HourlyWeather :=
  { dt := 11, temp := -20, wind_speed := 5, rain_prob := 50,
    cloud_cover := 0, uv_index := 1, description := "clear" }

/-- The two-hour batch of the climate-invariance counterexample. -/
def C5hours : List HourlyWeather := [C5hourA, C5hourB]

/-- Tie-break scenario: two hours with identical weather (hence identical
scores) at distinct timestamps. -/
def C6hour1 : HourlyWeather :=
  { dt := 9, temp := 3, wind_speed := 4, rain_prob := 30,
    cloud_cover := 50, uv_index := 2, description := "cloudy" }

/-- Tie-break scenario: the later of the two identical-weather hours. -/
def C6hour2 : HourlyWeather :=
  { dt := 12, temp := 3, wind_speed := 4, rain_prob := 30,
    cloud_cover := 50, uv_index := 2, description := "cloudy" }

/-- The two-hour batch of the tie-break scenario. -/
def C6hours : List HourlyWeather := [C6hour1, C6hour2]

/-- Coldest-windiest-wettest scenario hour: attains the batch minimum
temperature and maximum wind and rain strictly, but has the least cloud
cover. -/
def C8h1 : HourlyWeather :=
  { dt := 20, temp := 0, wind_speed := 6, rain_prob := 60,
    cloud_cover := 0, uv_index := 1, description := "rain" }

/-- Coldest-windiest-wettest scenario hour: slightly less extreme on
temperature, wind and rain, but fully overcast. -/
def C8h2 : HourlyWeather :=
  { dt := 21, temp := 1/10, wind_speed := 59/10, rain_prob := 59,
    cloud_cover := 100, uv_index := 1, description := "rain" }

/-- Coldest-windiest-wettest scenario hour: the mild hour that widens the
ranges. -/
def C8h3 : HourlyWeather :=
  { dt := 22, temp := 1, wind_speed := 5, rain_prob := 50,
    cloud_cover := 50, uv_index := 1, description := "cloudy" }

/-- The three-hour batch of the coldest-windiest-wettest counterexample. -/
def C8hours : List HourlyWeather := [C8h1, C8h2, C8h3]

/-- All-four-extremes scenario hour: coldest, windiest, wettest and most
overcast hour of its batch. -/
def W8h1 : HourlyWeather :=
  { dt := 9, temp := 0, wind_speed := 6, rain_prob := 60,
    cloud_cover := 80, uv_index := 1, description := "rain" }

/-- All-four-extremes scenario hour: milder on every metric. -/
def W8h2 : HourlyWeather :=
  { dt := 10, temp := 5, wind_speed := 3, rain_prob := 20,
    cloud_cover := 40, uv_index := 1, description := "cloudy" }

/-- The two-hour batch of the all-four-extremes scenario. -/
def W8hours : List HourlyWeather := [W8h1, W8h2]

/-- A single pleasant daylight hour used by the threshold scenario. -/
def W4hour : HourlyWeather :=
  { dt := 12, temp := 15, wind_speed := 2, rain_prob := 5,
    cloud_cover := 10, uv_index := 3, description := "sunny" }

/-! ### Bridge lemmas between the Python builtins and the order API -/

theorem pyMin_eq (a b : ℚ) : pyMin a b = min a b := by
  simp [pyMin, min_def]

theorem pyMax_eq (a b : ℚ) : pyMax a b = max a b := by
  unfold pyMax
  rw [max_def]
  split <;> split <;> first | rfl | linarith

theorem pyAbs_eq (a : ℚ) : pyAbs a = |a| := by
  rcases lt_or_le a 0 with h | h
  · simp [pyAbs, h, abs_of_neg h]
  · simp [pyAbs, not_lt.mpr h, abs_of_nonneg h]

theorem pyMin_add_right (a b c : ℚ) : pyMin (a + c) (b + c) = pyMin a b + c := by
  simp only [pyMin, add_le_add_iff_right]
  split <;> rfl

theorem pyMax_add_right (a b c : ℚ) : pyMax (a + c) (b + c) = pyMax a b + c := by
  simp only [pyMax, add_le_add_iff_right]
  split <;> rfl

/-! ### The list min/max builtins -/

theorem foldl_pyMin_le (l : List ℚ) (a : ℚ) :
    l.foldl pyMin a ≤ a ∧ ∀ x ∈ l, l.foldl pyMin a ≤ x := by
  induction l generalizing a with
  | nil => simp
  | cons x t ih =>
    obtain ⟨h1, h2⟩ := ih (pyMin a x)
    have hma : pyMin a x ≤ a := by rw [pyMin_eq]; exact min_le_left a x
    have hmx : pyMin a x ≤ x := by rw [pyMin_eq]; exact min_le_right a x
    refine ⟨le_trans h1 hma, ?_⟩
    intro y hy
    rcases List.mem_cons.mp hy with rfl | hy
    · exact le_trans h1 hmx
    · exact h2 y hy

theorem foldl_pyMax_le (l : List ℚ) (a : ℚ) :
    a ≤ l.foldl pyMax a ∧ ∀ x ∈ l, x ≤ l.foldl pyMax a := by
  induction l generalizing a with
  | nil => simp
  | cons x t ih =>
    obtain ⟨h1, h2⟩ := ih (pyMax a x)
    have hma : a ≤ pyMax a x := by rw [pyMax_eq]; exact le_max_left a x
    have hmx : x ≤ pyMax a x := by rw [pyMax_eq]; exact le_max_right a x
    refine ⟨le_trans hma h1, ?_⟩
    intro y hy
    rcases List.mem_cons.mp hy with rfl | hy
    · exact le_trans hmx h1
    · exact h2 y hy

theorem foldl_pyMin_attained (l : List ℚ) (a m : ℚ) (hm : m = a ∨ m ∈ l)
    (hma : m ≤ a) (hml : ∀ x ∈ l, m ≤ x) : l.foldl pyMin a = m := by
  induction l generalizing a with
  | nil =>
    rcases hm with rfl | h
    · rfl
    · cases h
  | cons x t ih =>
    have hx : m ≤ x := hml x (List.mem_cons_self x t)
    have ht : ∀ y ∈ t, m ≤ y := fun y hy => hml y (List.mem_cons_of_mem x hy)
    have hstep : m ≤ pyMin a x := by rw [pyMin_eq]; exact le_min hma hx
    apply ih (pyMin a x) ?_ hstep ht
    rcases hm with rfl | hm
    · left
      by_cases hax : m ≤ x
      · simp [pyMin, hax]
      · exact absurd hx hax
    · rcases List.mem_cons.mp hm with rfl | hm
      · left
        by_cases hax : a ≤ m
        · have ham : a = m := le_antisymm hax hma
          simp [pyMin, hax, ham]
        · simp [pyMin, hax]
      · right; exact hm

theorem foldl_pyMax_attained (l : List ℚ) (a m : ℚ) (hm : m = a ∨ m ∈ l)
    (hma : a ≤ m) (hml : ∀ x ∈ l, x ≤ m) : l.foldl pyMax a = m := by
  induction l generalizing a with
  | nil =>
    rcases hm with rfl | h
    · rfl
    · cases h
  | cons x t ih =>
    have hx : x ≤ m := hml x (List.mem_cons_self x t)
    have ht : ∀ y ∈ t, y ≤ m := fun y hy => hml y (List.mem_cons_of_mem x hy)
    have hstep : pyMax a x ≤ m := by rw [pyMax_eq]; exact max_le hma hx
    apply ih (pyMax a x) ?_ hstep ht
    rcases hm with rfl | hm
    · left
      by_cases hax : x ≤ m
      · simp [pyMax, hax]
      · exact absurd hx hax
    · rcases List.mem_cons.mp hm with rfl | hm
      · left
        by_cases hax : m ≤ a
        · have ham : a = m := le_antisymm hma hax
          simp [pyMax, hax, ham]
        · simp [pyMax, hax]
      · right; exact hm

theorem listMin_le_of_mem {xs : List ℚ} {lo x : ℚ} (h : listMin xs = some lo)
    (hx : x ∈ xs) : lo ≤ x := by
  cases xs with
  | nil => cases h
  | cons y t =>
    simp only [listMin, Option.some.injEq] at h
    subst h
    rcases List.mem_cons.mp hx with rfl | hx
    · exact (foldl_pyMin_le t x).1
    · exact (foldl_pyMin_le t y).2 x hx

theorem le_listMax_of_mem {xs : List ℚ} {hi x : ℚ} (h : listMax xs = some hi)
    (hx : x ∈ xs) : x ≤ hi := by
  cases xs with
  | nil => cases h
  | cons y t =>
    simp only [listMax, Option.some.injEq] at h
    subst h
    rcases List.mem_cons.mp hx with rfl | hx
    · exact (foldl_pyMax_le t x).1
    · exact (foldl_pyMax_le t y).2 x hx

theorem listMin_attained {xs : List ℚ} {m : ℚ} (hm : m ∈ xs)
    (hml : ∀ x ∈ xs, m ≤ x) : listMin xs = some m := by
  cases xs with
  | nil => cases hm
  | cons y t =>
    simp only [listMin, Option.some.injEq]
    apply foldl_pyMin_attained t y m
    · rcases List.mem_cons.mp hm with rfl | h
      · left; rfl
      · right; exact h
    · exact hml y (List.mem_cons_self y t)
    · exact fun x hx => hml x (List.mem_cons_of_mem y hx)

theorem listMax_attained {xs : List ℚ} {m : ℚ} (hm : m ∈ xs)
    (hml : ∀ x ∈ xs, x ≤ m) : listMax xs = some m := by
  cases xs with
  | nil => cases hm
  | cons y t =>
    simp only [listMax, Option.some.injEq]
    apply foldl_pyMax_attained t y m
    · rcases List.mem_cons.mp hm with rfl | h
      · left; rfl
      · right; exact h
    · exact hml y (List.mem_cons_self y t)
    · exact fun x hx => hml x (List.mem_cons_of_mem y hx)

theorem foldl_pyMin_map_add (l : List ℚ) (a c : ℚ) :
    (l.map (· + c)).foldl pyMin (a + c) = l.foldl pyMin a + c := by
  induction l generalizing a with
  | nil => rfl
  | cons x t ih =>
    simp only [List.map_cons, List.foldl_cons, pyMin_add_right]
    exact ih (pyMin a x)

theorem foldl_pyMax_map_add (l : List ℚ) (a c : ℚ) :
    (l.map (· + c)).foldl pyMax (a + c) = l.foldl pyMax a + c := by
  induction l generalizing a with
  | nil => rfl
  | cons x t ih =>
    simp only [List.map_cons, List.foldl_cons, pyMax_add_right]
    exact ih (pyMax a x)

theorem listMin_map_add (xs : List ℚ) (c : ℚ) :
    listMin (xs.map (· + c)) = (listMin xs).map (· + c) := by
  cases xs with
  | nil => rfl
  | cons y t =>
    simp only [listMin, List.map_cons]
    exact congrArg some (foldl_pyMin_map_add t y c)

theorem listMax_map_add (xs : List ℚ) (c : ℚ) :
    listMax (xs.map (· + c)) = (listMax xs).map (· + c) := by
  cases xs with
  | nil => rfl
  | cons y t =>
    simp only [listMax, List.map_cons]
    exact congrArg some (foldl_pyMax_map_add t y c)

/-! ### The first-wins selection fold -/

theorem foldl_bestStep_spec (t : List ScoredWindow) : ∀ a : ScoredWindow,
    ∃ l₁ l₂, a :: t = l₁ ++ (t.foldl bestStep a) :: l₂ ∧
      (∀ x ∈ l₁, x.score < (t.foldl bestStep a).score) ∧
      ∀ x ∈ a :: t, x.score ≤ (t.foldl bestStep a).score := by
  induction t with
  | nil =>
    intro a
    exact ⟨[], [], rfl, by simp, by simp⟩
  | cons x t ih =>
    intro a
    have hfold : (x :: t).foldl bestStep a = t.foldl bestStep (bestStep a x) := rfl
    by_cases hax : a.score < x.score
    · have hstep : bestStep a x = x := if_pos hax
      obtain ⟨l₁, l₂, hdec, hlt, hle⟩ := ih (bestStep a x)
      rw [hstep] at hdec hlt hle
      refine ⟨a :: l₁, l₂, ?_, ?_, ?_⟩
      · rw [hfold, hstep]
        simpa using hdec
      · intro y hy
        rcases List.mem_cons.mp hy with rfl | hy
        · rw [hfold, hstep]
          exact lt_of_lt_of_le hax (hle x (List.mem_cons_self x t))
        · rw [hfold, hstep]
          exact hlt y hy
      · intro y hy
        rw [hfold, hstep]
        rcases List.mem_cons.mp hy with rfl | hy
        · exact le_of_lt (lt_of_lt_of_le hax (hle x (List.mem_cons_self x t)))
        · exact hle y hy
    · have hstep : bestStep a x = a := if_neg hax
      have hxa : x.score ≤ a.score := le_of_not_lt hax
      obtain ⟨l₁, l₂, hdec, hlt, hle⟩ := ih (bestStep a x)
      rw [hstep] at hdec hlt hle
      cases l₁ with
      | nil =>
        simp only [List.nil_append, List.cons.injEq] at hdec
        obtain ⟨hra, hl₂⟩ := hdec
        refine ⟨[], x :: t, ?_, by simp, ?_⟩
        · rw [hfold, hstep]
          simp [← hra, ← hl₂]
        · intro y hy
          rw [hfold, hstep]
          rcases List.mem_cons.mp hy with rfl | hy
          · exact hle y (List.mem_cons_self y t)
          · rcases List.mem_cons.mp hy with rfl | hy
            · rw [← hra]
              exact hxa
            · exact hle y (List.mem_cons_of_mem a hy)
      | cons b l₁ =>
        simp only [List.cons_append, List.cons.injEq] at hdec
        obtain ⟨hba, hdec⟩ := hdec
        subst hba
        refine ⟨a :: x :: l₁, l₂, ?_, ?_, ?_⟩
        · rw [hfold, hstep]
          conv_lhs => rw [hdec]
          simp
        · intro y hy
          rw [hfold, hstep]
          have hblt : a.score < (t.foldl bestStep a).score :=
            hlt a (List.mem_cons_self a l₁)
          rcases List.mem_cons.mp hy with rfl | hy
          · exact hblt
          · rcases List.mem_cons.mp hy with rfl | hy
            · exact lt_of_le_of_lt hxa hblt
            · exact hlt y (List.mem_cons_of_mem a hy)
        · intro y hy
          rw [hfold, hstep]
          rcases List.mem_cons.mp hy with rfl | hy
          · exact hle y (List.mem_cons_self y t)
          · rcases List.mem_cons.mp hy with rfl | hy
            · exact le_trans hxa (hle a (List.mem_cons_self a t))
            · exact hle y (List.mem_cons_of_mem a hy)

theorem chooseBest_spec {l : List ScoredWindow} {b : ScoredWindow}
    (h : chooseBest l = some b) :
    ∃ l₁ l₂, l = l₁ ++ b :: l₂ ∧ (∀ x ∈ l₁, x.score < b.score) ∧
      ∀ x ∈ l, x.score ≤ b.score := by
  cases l with
  | nil => cases h
  | cons a t =>
    simp only [chooseBest, Option.some.injEq] at h
    subst h
    exact foldl_bestStep_spec t a

theorem chooseBest_mem {l : List ScoredWindow} {b : ScoredWindow}
    (h : chooseBest l = some b) : b ∈ l := by
  obtain ⟨l₁, l₂, hdec, -, -⟩ := chooseBest_spec h
  rw [hdec]
  exact List.mem_append_right l₁ (List.mem_cons_self b l₂)

theorem chooseBest_le {l : List ScoredWindow} {b : ScoredWindow}
    (h : chooseBest l = some b) : ∀ x ∈ l, x.score ≤ b.score := by
  obtain ⟨-, -, -, -, hle⟩ := chooseBest_spec h
  exact hle

theorem chooseBest_isSome {l : List ScoredWindow} (h : l ≠ []) :
    ∃ b, chooseBest l = some b := by
  cases l with
  | nil => exact absurd rfl h
  | cons a t => exact ⟨t.foldl bestStep a, rfl⟩

theorem foldl_bestStep_map (f : ScoredWindow → ScoredWindow)
    (hf : ∀ sw, (f sw).score = sw.score) (t : List ScoredWindow) :
    ∀ a, (t.map f).foldl bestStep (f a) = f (t.foldl bestStep a) := by
  induction t with
  | nil => intro a; rfl
  | cons x t ih =>
    intro a
    have hstep : bestStep (f a) (f x) = f (bestStep a x) := by
      unfold bestStep
      rw [hf, hf]
      split <;> rfl
    simp only [List.map_cons, List.foldl_cons, hstep]
    exact ih (bestStep a x)

theorem chooseBest_map (f : ScoredWindow → ScoredWindow)
    (hf : ∀ sw, (f sw).score = sw.score) (l : List ScoredWindow) :
    chooseBest (l.map f) = (chooseBest l).map f := by
  cases l with
  | nil => rfl
  | cons a t =>
    simp only [chooseBest, List.map_cons, Option.map_some']
    exact congrArg some (foldl_bestStep_map f hf t a)

/-! ### The scoring loop -/

theorem scoreSafeHoursFrom_map_hour (scorer : Scorer) (sun : SunTimes)
    (tlo thi wlo whi rlo rhi : ℚ) (hours : List HourlyWeather) : ∀ i,
    (scoreSafeHoursFrom scorer sun tlo thi wlo whi rlo rhi i hours).map
        (fun sw => sw.hour)
      = hours.filter _is_safe := by
  induction hours with
  | nil => intro i; rfl
  | cons h t ih =>
    intro i
    by_cases hs : _is_safe h
    · simp [scoreSafeHoursFrom, hs, List.filter_cons, ih (i + 1)]
    · simp [scoreSafeHoursFrom, hs, List.filter_cons, ih (i + 1)]

theorem scoreSafeHoursFrom_sound (scorer : Scorer) (sun : SunTimes)
    (tlo thi wlo whi rlo rhi : ℚ) (hours : List HourlyWeather) : ∀ i sw,
    sw ∈ scoreSafeHoursFrom scorer sun tlo thi wlo whi rlo rhi i hours →
      i ≤ sw.idx ∧ hours.get? (sw.idx - i) = some sw.hour ∧
        _is_safe sw.hour = true ∧
        sw.score = scorer sw.hour sun tlo thi wlo whi rlo rhi := by
  induction hours with
  | nil => intro i sw hmem; cases hmem
  | cons h t ih =>
    intro i sw hmem
    by_cases hs : _is_safe h
    · rw [scoreSafeHoursFrom, if_pos hs] at hmem
      rcases List.mem_cons.mp hmem with rfl | hmem
      · simp [hs]
      · obtain ⟨hle, hget, hsafe, hscore⟩ := ih (i + 1) sw hmem
        refine ⟨by omega, ?_, hsafe, hscore⟩
        have : sw.idx - i = (sw.idx - (i + 1)) + 1 := by omega
        rw [this]
        simpa using hget
    · rw [scoreSafeHoursFrom, if_neg hs] at hmem
      obtain ⟨hle, hget, hsafe, hscore⟩ := ih (i + 1) sw hmem
      refine ⟨by omega, ?_, hsafe, hscore⟩
      have : sw.idx - i = (sw.idx - (i + 1)) + 1 := by omega
      rw [this]
      simpa using hget

theorem scoreSafeHoursFrom_complete (scorer : Scorer) (sun : SunTimes)
    (tlo thi wlo whi rlo rhi : ℚ) (hours : List HourlyWeather) : ∀ i j h,
    hours.get? j = some h → _is_safe h = true →
      (⟨i + j, h, scorer h sun tlo thi wlo whi rlo rhi⟩ : ScoredWindow) ∈
        scoreSafeHoursFrom scorer sun tlo thi wlo whi rlo rhi i hours := by
  induction hours with
  | nil => intro i j h hget; cases hget
  | cons h0 t ih =>
    intro i j h hget hsafe
    cases j with
    | zero =>
      simp only [List.get?] at hget
      injection hget with hget
      subst hget
      rw [scoreSafeHoursFrom, if_pos hsafe]
      exact List.mem_cons_self _ _
    | succ j =>
      have hmem := ih (i + 1) j h (by simpa using hget) hsafe
      have harith : i + 1 + j = i + (j + 1) := by omega
      rw [harith] at hmem
      by_cases hs : _is_safe h0
      · rw [scoreSafeHoursFrom, if_pos hs]
        exact List.mem_cons_of_mem _ hmem
      · rw [scoreSafeHoursFrom, if_neg hs]
        exact hmem

/-! ### Ranges of a nonempty batch -/

theorem range_some (f : HourlyWeather → ℚ) (hours : List HourlyWeather)
    (h : hours ≠ []) :
    ∃ lo hi, listMin (hours.map f) = some lo ∧ listMax (hours.map f) = some hi ∧
      ∀ x ∈ hours, lo ≤ f x ∧ f x ≤ hi := by
  cases hours with
  | nil => exact absurd rfl h
  | cons a t =>
    have hmin : listMin ((a :: t).map f) = some ((t.map f).foldl pyMin (f a)) := rfl
    have hmax : listMax ((a :: t).map f) = some ((t.map f).foldl pyMax (f a)) := rfl
    refine ⟨_, _, hmin, hmax, ?_⟩
    intro x hx
    exact ⟨listMin_le_of_mem hmin (List.mem_map_of_mem f hx),
      le_listMax_of_mem hmax (List.mem_map_of_mem f hx)⟩

theorem temp_range_some {hours : List HourlyWeather} (h : hours ≠ []) :
    ∃ tlo thi, _temp_range hours = some (tlo, thi) ∧
      ∀ x ∈ hours, tlo ≤ x.temp ∧ x.temp ≤ thi := by
  obtain ⟨lo, hi, hmin, hmax, hb⟩ := range_some (·.temp) hours h
  exact ⟨lo, hi, by simp [_temp_range, hmin, hmax], hb⟩

theorem wind_range_some {hours : List HourlyWeather} (h : hours ≠ []) :
    ∃ wlo whi, _wind_range hours = some (wlo, whi) ∧
      ∀ x ∈ hours, wlo ≤ x.wind_speed ∧ x.wind_speed ≤ whi := by
  obtain ⟨lo, hi, hmin, hmax, hb⟩ := range_some (·.wind_speed) hours h
  exact ⟨lo, hi, by simp [_wind_range, hmin, hmax], hb⟩

theorem rain_range_some {hours : List HourlyWeather} (h : hours ≠ []) :
    ∃ rlo rhi, _rain_range hours = some (rlo, rhi) ∧
      ∀ x ∈ hours, rlo ≤ x.rain_prob ∧ x.rain_prob ≤ rhi := by
  obtain ⟨lo, hi, hmin, hmax, hb⟩ := range_some (·.rain_prob) hours h
  exact ⟨lo, hi, by simp [_rain_range, hmin, hmax], hb⟩

/-! ### The engine unfolded under known scorer and ranges -/

theorem safeScored_eq {mood : String} {scorer : Scorer}
    {hours : List HourlyWeather} {tlo thi wlo whi rlo rhi : ℚ} (sun : SunTimes)
    (hs : DIAGNOSTIC_MOODS mood = some scorer)
    (ht : _temp_range hours = some (tlo, thi))
    (hw : _wind_range hours = some (wlo, whi))
    (hr : _rain_range hours = some (rlo, rhi)) :
    safeScored mood hours sun =
      scoreSafeHours scorer hours sun tlo thi wlo whi rlo rhi := by
  simp [safeScored, hs, ht, hw, hr]

theorem pick_cases {mood : String} {scorer : Scorer}
    {hours : List HourlyWeather} (sun : SunTimes)
    (d hu rel : String) (ch : Nat)
    (hs : DIAGNOSTIC_MOODS mood = some scorer) (hne : hours ≠ []) :
    pick_walk_window mood hours sun d hu rel ch =
      match selectedWindow mood hours sun with
      | none =>
          .ok (_fallback_response mood d hu rel _DIAGNOSTIC_FALLBACKS ch)
      | some best =>
          if best.score < 10 then
            .ok (_fallback_response mood d hu rel _DIAGNOSTIC_FALLBACKS ch)
          else .ok (buildResponse mood best.hour d hu rel) := by
  obtain ⟨tlo, thi, ht, -⟩ := temp_range_some hne
  obtain ⟨wlo, whi, hw, -⟩ := wind_range_some hne
  obtain ⟨rlo, rhi, hr, -⟩ := rain_range_some hne
  simp only [pick_walk_window, hs, ht, hw, hr]

/-! ### The range normalizer -/

theorem rp_flat (x v : ℚ) : _relative_position x v v = 0.5 := by
  simp [_relative_position]

theorem rp_nonneg (v lo hi : ℚ) : 0 ≤ _relative_position v lo hi := by
  unfold _relative_position
  split
  · norm_num
  · rw [pyMax_eq]
    exact le_max_left 0 _

theorem rp_le_one (v lo hi : ℚ) : _relative_position v lo hi ≤ 1 := by
  unfold _relative_position
  split
  · norm_num
  · rw [pyMax_eq, pyMin_eq]
    exact max_le (by norm_num) (min_le_left 1 _)

theorem rp_self_lo {lo hi : ℚ} (hne : hi ≠ lo) :
    _relative_position lo lo hi = 0 := by
  unfold _relative_position
  rw [if_neg hne]
  have hz : (lo - lo) / (hi - lo) = 0 := by simp
  rw [hz]
  norm_num [pyMin, pyMax]

theorem rp_self_hi {lo hi : ℚ} (hne : hi ≠ lo) :
    _relative_position hi lo hi = 1 := by
  unfold _relative_position
  rw [if_neg hne]
  have hd : hi - lo ≠ 0 := sub_ne_zero.mpr hne
  rw [div_self hd]
  norm_num [pyMin, pyMax]

theorem rp_mono {lo hi : ℚ} (hlh : lo ≤ hi) {v w : ℚ} (hvw : v ≤ w) :
    _relative_position v lo hi ≤ _relative_position w lo hi := by
  unfold _relative_position
  split
  · exact le_refl _
  · rename_i hne
    have hlt : lo < hi := lt_of_le_of_ne hlh (fun e => hne e.symm)
    have hd : (0 : ℚ) < hi - lo := by linarith
    have hdiv : (v - lo) / (hi - lo) ≤ (w - lo) / (hi - lo) := by
      apply div_le_div_of_nonneg_right ?_ hd.le
      linarith
    rw [pyMax_eq, pyMax_eq, pyMin_eq, pyMin_eq]
    exact max_le_max (le_refl 0) (min_le_min (le_refl 1) hdiv)

theorem rp_eq_hi_imp {lo hi v : ℚ} (hlo : lo ≤ v) (hv : v ≤ hi)
    (h : _relative_position v lo hi = _relative_position hi lo hi) : v = hi := by
  by_cases hne : hi = lo
  · subst hne
    linarith
  · rw [rp_self_hi hne] at h
    unfold _relative_position at h
    rw [if_neg hne] at h
    have hlt : lo < hi := lt_of_le_of_ne (le_trans hlo hv) (fun e => hne e.symm)
    have hd : (0 : ℚ) < hi - lo := by linarith
    by_contra hvne
    have hvlt : v < hi := lt_of_le_of_ne hv hvne
    have hq : (v - lo) / (hi - lo) < 1 := by
      rw [div_lt_one hd]
      linarith
    rw [pyMin_eq, min_eq_right hq.le] at h
    unfold pyMax at h
    split at h <;> linarith

theorem rp_eq_lo_imp {lo hi v : ℚ} (hlo : lo ≤ v) (hv : v ≤ hi)
    (h : _relative_position v lo hi = _relative_position lo lo hi) : v = lo := by
  by_cases hne : hi = lo
  · subst hne
    linarith
  · rw [rp_self_lo hne] at h
    unfold _relative_position at h
    rw [if_neg hne] at h
    have hlt : lo < hi := lt_of_le_of_ne (le_trans hlo hv) (fun e => hne e.symm)
    have hd : (0 : ℚ) < hi - lo := by linarith
    by_contra hvne
    have hvgt : lo < v := lt_of_le_of_ne hlo (fun e => hvne e.symm)
    have hq : 0 < (v - lo) / (hi - lo) := by
      apply div_pos ?_ hd
      linarith
    have hq1 : pyMin 1 ((v - lo) / (hi - lo)) > 0 := by
      rw [pyMin_eq]
      exact lt_min (by norm_num) hq
    unfold pyMax at h
    split at h <;> linarith

theorem rp_unit_interval {c : ℚ} (h0 : 0 ≤ c) (h1 : c ≤ 100) :
    _relative_position c 0 100 = c / 100 := by
  unfold _relative_position
  rw [if_neg (by norm_num)]
  have hs : (c - 0) / (100 - 0 : ℚ) = c / 100 := by norm_num
  have h1' : c / 100 ≤ 1 := by
    rw [div_le_one (by norm_num : (0:ℚ) < 100)]
    exact h1
  have h0' : (0 : ℚ) ≤ c / 100 := by positivity
  rw [hs, pyMin_eq, pyMax_eq, min_eq_right h1', max_eq_right h0']

theorem rp_shift (v lo hi c : ℚ) :
    _relative_position (v + c) (lo + c) (hi + c) = _relative_position v lo hi := by
  unfold _relative_position
  by_cases hne : hi = lo
  · rw [if_pos (by rw [hne]), if_pos hne]
  · have hne2 : ¬(hi + c = lo + c) := fun e => hne (by linarith)
    rw [if_neg hne2, if_neg hne]
    have e1 : v + c - (lo + c) = v - lo := by ring
    have e2 : hi + c - (lo + c) = hi - lo := by ring
    rw [e1, e2]

/-! ### Shifting every temperature by a constant offset -/

theorem shiftHours_map_temp (c : ℚ) (hours : List HourlyWeather) :
    (shiftHours c hours).map (·.temp) = (hours.map (·.temp)).map (· + c) := by
  simp only [shiftHours, List.map_map]
  rfl

theorem shiftHours_map_wind (c : ℚ) (hours : List HourlyWeather) :
    (shiftHours c hours).map (·.wind_speed) = hours.map (·.wind_speed) := by
  simp only [shiftHours, List.map_map]
  rfl

theorem shiftHours_map_rain (c : ℚ) (hours : List HourlyWeather) :
    (shiftHours c hours).map (·.rain_prob) = hours.map (·.rain_prob) := by
  simp only [shiftHours, List.map_map]
  rfl

theorem temp_range_shift (c : ℚ) (hours : List HourlyWeather) :
    _temp_range (shiftHours c hours)
      = (_temp_range hours).map (fun p => (p.1 + c, p.2 + c)) := by
  unfold _temp_range
  rw [shiftHours_map_temp, listMin_map_add, listMax_map_add]
  cases listMin (hours.map (·.temp)) <;> cases listMax (hours.map (·.temp)) <;> simp

theorem wind_range_shift (c : ℚ) (hours : List HourlyWeather) :
    _wind_range (shiftHours c hours) = _wind_range hours := by
  unfold _wind_range
  rw [shiftHours_map_wind]

theorem rain_range_shift (c : ℚ) (hours : List HourlyWeather) :
    _rain_range (shiftHours c hours) = _rain_range hours := by
  unfold _rain_range
  rw [shiftHours_map_rain]

theorem lb_score_shift (h : HourlyWeather) (sun : SunTimes)
    (tlo thi wlo whi rlo rhi c : ℚ) :
    _score_low_battery_human { h with temp := h.temp + c } sun
        (tlo + c) (thi + c) wlo whi rlo rhi
      = _score_low_battery_human h sun tlo thi wlo whi rlo rhi := by
  simp only [_score_low_battery_human, _is_daylight, rp_shift]

theorem cd_score_shift (h : HourlyWeather) (sun : SunTimes)
    (tlo thi wlo whi rlo rhi c : ℚ)
    (hsafe : _is_safe { h with temp := h.temp + c } = _is_safe h) :
    _score_character_development { h with temp := h.temp + c } sun
        (tlo + c) (thi + c) wlo whi rlo rhi
      = _score_character_development h sun tlo thi wlo whi rlo rhi := by
  simp only [_score_character_development, rp_shift, hsafe]

theorem scoreSafeHoursFrom_shift (scorer : Scorer) (sun : SunTimes)
    (tlo thi wlo whi rlo rhi c : ℚ) (hours : List HourlyWeather)
    (hsafe : ∀ h ∈ hours, _is_safe { h with temp := h.temp + c } = _is_safe h)
    (hinv : ∀ h ∈ hours,
      scorer { h with temp := h.temp + c } sun (tlo + c) (thi + c) wlo whi rlo rhi
        = scorer h sun tlo thi wlo whi rlo rhi) : ∀ i,
    scoreSafeHoursFrom scorer sun (tlo + c) (thi + c) wlo whi rlo rhi i
        (shiftHours c hours)
      = (scoreSafeHoursFrom scorer sun tlo thi wlo whi rlo rhi i hours).map
          (fun sw => { sw with hour := { sw.hour with temp := sw.hour.temp + c } }) := by
  induction hours with
  | nil => intro i; rfl
  | cons h t ih =>
    intro i
    have hsh : shiftHours c (h :: t)
        = { h with temp := h.temp + c } :: shiftHours c t := rfl
    have hs := hsafe h (List.mem_cons_self h t)
    have hv := hinv h (List.mem_cons_self h t)
    have iht := ih (fun x hx => hsafe x (List.mem_cons_of_mem h hx))
      (fun x hx => hinv x (List.mem_cons_of_mem h hx))
    rw [hsh]
    by_cases hcase : _is_safe h = true
    · rw [scoreSafeHoursFrom, scoreSafeHoursFrom, if_pos hcase,
        if_pos (hs.trans hcase), List.map_cons, iht (i + 1), hv]
    · have hcase2 : ¬ _is_safe { h with temp := h.temp + c } = true := by
        rw [hs]; exact hcase
      rw [scoreSafeHoursFrom, scoreSafeHoursFrom, if_neg hcase, if_neg hcase2,
        iht (i + 1)]

theorem selectedWindow_shift {mood : String} {scorer : Scorer}
    (hours : List HourlyWeather) (sun : SunTimes) (c : ℚ)
    (hmood : DIAGNOSTIC_MOODS mood = some scorer)
    (hsafe : ∀ h ∈ hours, _is_safe { h with temp := h.temp + c } = _is_safe h)
    (hinv : ∀ tlo thi wlo whi rlo rhi : ℚ, ∀ h ∈ hours,
      scorer { h with temp := h.temp + c } sun (tlo + c) (thi + c) wlo whi rlo rhi
        = scorer h sun tlo thi wlo whi rlo rhi) :
    selectedWindow mood (shiftHours c hours) sun
      = (selectedWindow mood hours sun).map
          (fun sw => { sw with hour := { sw.hour with temp := sw.hour.temp + c } }) := by
  cases hours with
  | nil =>
    simp [selectedWindow, safeScored, shiftHours, hmood, _temp_range, listMin,
      chooseBest]
  | cons a t =>
    have hne : (a :: t) ≠ ([] : List HourlyWeather) := by simp
    obtain ⟨tlo, thi, ht, -⟩ := temp_range_some hne
    obtain ⟨wlo, whi, hwr, -⟩ := wind_range_some hne
    obtain ⟨rlo, rhi, hrr, -⟩ := rain_range_some hne
    have htshift : _temp_range (shiftHours c (a :: t)) = some (tlo + c, thi + c) := by
      rw [temp_range_shift, ht]
      rfl
    have hwshift : _wind_range (shiftHours c (a :: t)) = some (wlo, whi) := by
      rw [wind_range_shift]
      exact hwr
    have hrshift : _rain_range (shiftHours c (a :: t)) = some (rlo, rhi) := by
      rw [rain_range_shift]
      exact hrr
    rw [selectedWindow, selectedWindow,
      safeScored_eq sun hmood htshift hwshift hrshift,
      safeScored_eq sun hmood ht hwr hrr]
    unfold scoreSafeHours
    rw [scoreSafeHoursFrom_shift scorer sun tlo thi wlo whi rlo rhi c (a :: t)
      hsafe (hinv tlo thi wlo whi rlo rhi) 0]
    exact chooseBest_map
      (fun sw => { sw with hour := { sw.hour with temp := sw.hour.temp + c } })
      (fun sw => rfl) _

/-! ### Extremal facts used by the coldest-windiest-wettest analysis -/

theorem temp_range_fst {hours : List HourlyWeather} {tlo thi : ℚ}
    (ht : _temp_range hours = some (tlo, thi)) :
    listMin (hours.map (·.temp)) = some tlo ∧
      listMax (hours.map (·.temp)) = some thi := by
  unfold _temp_range at ht
  cases hmin : listMin (hours.map (·.temp)) <;>
    cases hmax : listMax (hours.map (·.temp)) <;>
    rw [hmin, hmax] at ht <;> simp_all

theorem wind_range_fst {hours : List HourlyWeather} {wlo whi : ℚ}
    (hw : _wind_range hours = some (wlo, whi)) :
    listMin (hours.map (·.wind_speed)) = some wlo ∧
      listMax (hours.map (·.wind_speed)) = some whi := by
  unfold _wind_range at hw
  cases hmin : listMin (hours.map (·.wind_speed)) <;>
    cases hmax : listMax (hours.map (·.wind_speed)) <;>
    rw [hmin, hmax] at hw <;> simp_all

theorem rain_range_fst {hours : List HourlyWeather} {rlo rhi : ℚ}
    (hr : _rain_range hours = some (rlo, rhi)) :
    listMin (hours.map (·.rain_prob)) = some rlo ∧
      listMax (hours.map (·.rain_prob)) = some rhi := by
  unfold _rain_range at hr
  cases hmin : listMin (hours.map (·.rain_prob)) <;>
    cases hmax : listMax (hours.map (·.rain_prob)) <;>
    rw [hmin, hmax] at hr <;> simp_all

theorem rp_at_max_ge_half {lo hi : ℚ} (hlh : lo ≤ hi) :
    1 / 2 ≤ _relative_position hi lo hi := by
  by_cases hne : hi = lo
  · rw [hne, rp_flat]
    norm_num
  · rw [rp_self_hi hne]
    norm_num

theorem rp_at_min_le_half {lo hi : ℚ} (hlh : lo ≤ hi) :
    _relative_position lo lo hi ≤ 1 / 2 := by
  by_cases hne : hi = lo
  · rw [hne, rp_flat]
    norm_num
  · rw [rp_self_lo hne]
    norm_num

theorem le_clamp {S : ℚ} (h45 : 45 ≤ S) (h100 : S ≤ 100) :
    10 ≤ pyMax 0 (pyMin 100 S) := by
  rw [pyMin_eq, pyMax_eq, min_eq_right h100, max_eq_right (by linarith)]
  linarith

theorem clamp_eq_imp {S T : ℚ} (hT0 : 0 < T) (hT100 : T ≤ 100) (hST : S ≤ T)
    (h : pyMax 0 (pyMin 100 S) = pyMax 0 (pyMin 100 T)) : S = T := by
  rw [pyMax_eq, pyMax_eq, pyMin_eq, pyMin_eq, min_eq_right hT100,
    max_eq_right hT0.le, min_eq_right (le_trans hST hT100)] at h
  rcases le_or_lt S 0 with hS | hS
  · rw [max_eq_left hS] at h
    linarith
  · rw [max_eq_right hS.le] at h
    exact h

theorem cd_score_lower (sun : SunTimes) (tlo thi wlo whi rlo rhi : ℚ)
    (s : HourlyWeather) (hss : _is_safe s = true)
    (hw : 1 / 2 ≤ _relative_position s.wind_speed wlo whi)
    (ht : _relative_position s.temp tlo thi ≤ 1 / 2)
    (hr : 1 / 2 ≤ _relative_position s.rain_prob rlo rhi) :
    10 ≤ _score_character_development s sun tlo thi wlo whi rlo rhi := by
  simp only [_score_character_development, hss, Bool.not_true, Bool.false_eq_true,
    if_false]
  apply le_clamp
  · have h1 := rp_le_one s.temp tlo thi
    have h2 := rp_nonneg s.cloud_cover 0 100
    linarith
  · have h1 := rp_le_one s.wind_speed wlo whi
    have h2 := rp_nonneg s.temp tlo thi
    have h3 := rp_le_one s.rain_prob rlo rhi
    have h4 := rp_le_one s.cloud_cover 0 100
    linarith

theorem cd_score_analysis (sun : SunTimes) (tlo thi wlo whi rlo rhi : ℚ)
    (e s : HourlyWeather) (hse : _is_safe e = true) (hss : _is_safe s = true)
    (hw : _relative_position e.wind_speed wlo whi ≤
          _relative_position s.wind_speed wlo whi)
    (ht : _relative_position s.temp tlo thi ≤ _relative_position e.temp tlo thi)
    (hr : _relative_position e.rain_prob rlo rhi ≤
          _relative_position s.rain_prob rlo rhi)
    (hc : _relative_position e.cloud_cover 0 100 ≤
          _relative_position s.cloud_cover 0 100)
    (hsw : 1 / 2 ≤ _relative_position s.wind_speed wlo whi)
    (hst : _relative_position s.temp tlo thi ≤ 1 / 2)
    (hsr : 1 / 2 ≤ _relative_position s.rain_prob rlo rhi) :
    _score_character_development e sun tlo thi wlo whi rlo rhi ≤
        _score_character_development s sun tlo thi wlo whi rlo rhi
    ∧ (_score_character_development e sun tlo thi wlo whi rlo rhi =
          _score_character_development s sun tlo thi wlo whi rlo rhi →
        _relative_position e.wind_speed wlo whi =
            _relative_position s.wind_speed wlo whi
        ∧ _relative_position e.temp tlo thi = _relative_position s.temp tlo thi
        ∧ _relative_position e.rain_prob rlo rhi =
            _relative_position s.rain_prob rlo rhi
        ∧ _relative_position e.cloud_cover 0 100 =
            _relative_position s.cloud_cover 0 100) := by
  simp only [_score_character_development, hse, hss, Bool.not_true,
    Bool.false_eq_true, if_false]
  have hSle : 0 + _relative_position e.wind_speed wlo whi * 35
        + (1 - _relative_position e.temp tlo thi) * 30
        + _relative_position e.rain_prob rlo rhi * 25
        + _relative_position e.cloud_cover 0 100 * 10
      ≤ 0 + _relative_position s.wind_speed wlo whi * 35
        + (1 - _relative_position s.temp tlo thi) * 30
        + _relative_position s.rain_prob rlo rhi * 25
        + _relative_position s.cloud_cover 0 100 * 10 := by
    linarith
  have hT0 : (0 : ℚ) < 0 + _relative_position s.wind_speed wlo whi * 35
      + (1 - _relative_position s.temp tlo thi) * 30
      + _relative_position s.rain_prob rlo rhi * 25
      + _relative_position s.cloud_cover 0 100 * 10 := by
    have h2 := rp_nonneg s.cloud_cover 0 100
    linarith
  have hT100 : 0 + _relative_position s.wind_speed wlo whi * 35
      + (1 - _relative_position s.temp tlo thi) * 30
      + _relative_position s.rain_prob rlo rhi * 25
      + _relative_position s.cloud_cover 0 100 * 10 ≤ 100 := by
    have h1 := rp_le_one s.wind_speed wlo whi
    have h2 := rp_nonneg s.temp tlo thi
    have h3 := rp_le_one s.rain_prob rlo rhi
    have h4 := rp_le_one s.cloud_cover 0 100
    linarith
  constructor
  · rw [pyMax_eq, pyMax_eq, pyMin_eq, pyMin_eq]
    exact max_le_max (le_refl 0) (min_le_min (le_refl 100) hSle)
  · intro heq
    have hpre := clamp_eq_imp hT0 hT100 hSle heq
    exact ⟨by linarith, by linarith, by linarith, by linarith⟩

/-! ### Claim theorems -/

/-- C1 (code bug in the source): the spec routes an empty forecast batch
to the fallback response with recommended_time N/A, but pick_walk_window
computes the batch ranges before the fallback check, and the min builtin
of Python raises ValueError on the empty sequence. For every registered
mood, any sun times, identity strings and fallback choice, the call on
the empty batch signals that ValueError and never returns the fallback
response. -/
theorem C1_empty_batch_raises (mood : String) (sun : SunTimes)
    (dog human rel : String) (choice : Nat)
    (hreg : (DIAGNOSTIC_MOODS mood).isSome = true) :
    pick_walk_window mood [] sun dog human rel choice =
      Except.error EngineError.emptySeq := by
  obtain ⟨scorer, hs⟩ := Option.isSome_iff_exists.mp hreg
  simp [pick_walk_window, hs, _temp_range, _wind_range, _rain_range, listMin,
    listMax]

/-- Witness for C1: the concrete mood low_battery on the empty batch. -/
theorem C1_empty_batch_raises_witness :
    (DIAGNOSTIC_MOODS "low_battery").isSome = true ∧
      pick_walk_window "low_battery" [] sun0 "Rex" "Sam" "owner" 0 =
        Except.error EngineError.emptySeq :=
  ⟨rfl, C1_empty_batch_raises "low_battery" sun0 "Rex" "Sam" "owner" 0 rfl⟩

/-- C2: the Safety Filter accepts an hour exactly when its wind speed is
strictly below 18, its rain probability strictly below 95 and its
temperature strictly above -30; and the scoring loop keeps exactly the
hours accepted by the filter, in forecast order, so precisely the hours
with wind at least 18, rain at least 95 or temperature at most -30 are
excluded from scoring and no others. -/
theorem C2_safety_filter (h : HourlyWeather) (scorer : Scorer)
    (hours : List HourlyWeather) (sun : SunTimes)
    (tlo thi wlo whi rlo rhi : ℚ) :
    (_is_safe h = true ↔
      (h.wind_speed < 18 ∧ h.rain_prob < 95 ∧ -30 < h.temp))
    ∧ (scoreSafeHours scorer hours sun tlo thi wlo whi rlo rhi).map
        (fun sw => sw.hour) = hours.filter _is_safe := by
  constructor
  · simp [_is_safe, WIND_LIMIT_MS, RAIN_LIMIT_PCT, TEMP_LIMIT_MIN, and_assoc]
  · exact scoreSafeHoursFrom_map_hour scorer sun tlo thi wlo whi rlo rhi hours 0

/-- C3: the normalizer returns the clamped relative position when the
range is not flat, exactly 0.5 on a flat range, and in particular maps
the low end to 0, the high end to 1, and anything to 0.5 on a flat
range. -/
theorem C3_relative_position (val lo hi : ℚ) :
    (hi ≠ lo → _relative_position val lo hi
        = max 0 (min 1 ((val - lo) / (hi - lo))))
    ∧ (hi = lo → _relative_position val lo hi = 0.5)
    ∧ (hi ≠ lo →
        _relative_position lo lo hi = 0 ∧ _relative_position hi lo hi = 1)
    ∧ ∀ x v : ℚ, _relative_position x v v = 0.5 := by
  refine ⟨?_, ?_, ?_, ?_⟩
  · intro hne
    rw [_relative_position, if_neg hne, pyMax_eq, pyMin_eq]
  · intro he
    rw [_relative_position, if_pos he]
  · intro hne
    exact ⟨rp_self_lo hne, rp_self_hi hne⟩
  · exact rp_flat

/-- Witness for C3 at the concrete range [1, 5] and the flat range
[2, 2]. -/
theorem C3_relative_position_witness :
    ((5 : ℚ) ≠ 1 ∧
      _relative_position 3 1 5 = max 0 (min 1 ((3 - 1) / (5 - 1))))
    ∧ (_relative_position 1 1 5 = 0 ∧ _relative_position 5 1 5 = 1)
    ∧ _relative_position 7 2 2 = 0.5 :=
  ⟨⟨by norm_num, (C3_relative_position 3 1 5).1 (by norm_num)⟩,
    (C3_relative_position 3 1 5).2.2.1 (by norm_num),
    (C3_relative_position 3 1 5).2.2.2 7 2⟩

/-- C7: a mood identifier outside the seven registered moods makes
pick_walk_window raise the distinct unknown-mood ValueError, for every
batch including the empty one; no fallback and no normal recommendation
is returned. -/
theorem C7_unknown_mood (mood : String) (hours : List HourlyWeather)
    (sun : SunTimes) (dog human rel : String) (choice : Nat)
    (hmood : mood ∉ MOOD_NAMES) :
    pick_walk_window mood hours sun dog human rel choice =
      Except.error (EngineError.unknownMood mood) := by
  have hnone : DIAGNOSTIC_MOODS mood = none := by
    unfold DIAGNOSTIC_MOODS
    split <;> simp_all [MOOD_NAMES]
  simp [pick_walk_window, hnone]

/-- Witness for C7: the concrete unregistered mood identifier zoomies on
the empty batch. -/
theorem C7_unknown_mood_witness :
    "zoomies" ∉ MOOD_NAMES ∧
      pick_walk_window "zoomies" [] sun0 "Rex" "Sam" "owner" 0 =
        Except.error (EngineError.unknownMood "zoomies") :=
  ⟨by simp [MOOD_NAMES],
    C7_unknown_mood "zoomies" [] sun0 "Rex" "Sam" "owner" 0
      (by simp [MOOD_NAMES])⟩

/-- C9: the condition commentary picks exactly one note by first-matching
priority: frozen ground below -10, else below zero below 0, else high
wind above 12, else heavy rain above 80, else no note; being a single
returned value, never more than one note is produced. -/
theorem C9_condition_commentary (t w r : ℚ) :
    (t < -10 → _condition_commentary t w r = Commentary.frozenGround t)
    ∧ (-10 ≤ t → t < 0 → _condition_commentary t w r = Commentary.belowZero t)
    ∧ (-10 ≤ t → 0 ≤ t → 12 < w →
        _condition_commentary t w r = Commentary.highWind w)
    ∧ (-10 ≤ t → 0 ≤ t → w ≤ 12 → 80 < r →
        _condition_commentary t w r = Commentary.heavyRain)
    ∧ (-10 ≤ t → 0 ≤ t → w ≤ 12 → r ≤ 80 →
        _condition_commentary t w r = Commentary.noNote) := by
  unfold _condition_commentary
  refine ⟨?_, ?_, ?_, ?_, ?_⟩
  · intro h1
    rw [if_pos h1]
  · intro h1 h2
    rw [if_neg (not_lt.mpr h1), if_pos h2]
  · intro h1 h2 h3
    rw [if_neg (not_lt.mpr h1), if_neg (not_lt.mpr h2), if_pos h3]
  · intro h1 h2 h3 h4
    rw [if_neg (not_lt.mpr h1), if_neg (not_lt.mpr h2),
      if_neg (not_lt.mpr h3), if_pos h4]
  · intro h1 h2 h3 h4
    rw [if_neg (not_lt.mpr h1), if_neg (not_lt.mpr h2),
      if_neg (not_lt.mpr h3), if_neg (not_lt.mpr h4)]

/-- Witness for C9: one concrete input per priority branch. -/
theorem C9_condition_commentary_witness :
    _condition_commentary (-15) 0 0 = Commentary.frozenGround (-15)
    ∧ _condition_commentary (-5) 20 90 = Commentary.belowZero (-5)
    ∧ _condition_commentary 5 13 90 = Commentary.highWind 13
    ∧ _condition_commentary 5 5 90 = Commentary.heavyRain
    ∧ _condition_commentary 5 5 50 = Commentary.noNote :=
  ⟨(C9_condition_commentary (-15) 0 0).1 (by norm_num),
    (C9_condition_commentary (-5) 20 90).2.1 (by norm_num) (by norm_num),
    (C9_condition_commentary 5 13 90).2.2.1 (by norm_num) (by norm_num)
      (by norm_num),
    (C9_condition_commentary 5 5 90).2.2.2.1 (by norm_num) (by norm_num)
      (by norm_num) (by norm_num),
    (C9_condition_commentary 5 5 50).2.2.2.2 (by norm_num) (by norm_num)
      (by norm_num) (by norm_num)⟩

/-- C10: changing only the uv_index of a snapshot leaves every scorer
except long_term_health unchanged, and changing only the free-text
description leaves all seven scorers unchanged. -/
theorem C10_uv_description_noninterference (h : HourlyWeather)
    (sun : SunTimes) (tlo thi wlo whi rlo rhi u : ℚ) (d : String) :
    (_score_low_battery_human { h with uv_index := u } sun
        tlo thi wlo whi rlo rhi
      = _score_low_battery_human h sun tlo thi wlo whi rlo rhi)
    ∧ (_score_posture_emergency { h with uv_index := u } sun
        tlo thi wlo whi rlo rhi
      = _score_posture_emergency h sun tlo thi wlo whi rlo rhi)
    ∧ (_score_doomscroll_detox { h with uv_index := u } sun
        tlo thi wlo whi rlo rhi
      = _score_doomscroll_detox h sun tlo thi wlo whi rlo rhi)
    ∧ (_score_burnout_recovery { h with uv_index := u } sun
        tlo thi wlo whi rlo rhi
      = _score_burnout_recovery h sun tlo thi wlo whi rlo rhi)
    ∧ (_score_hygiene_intervention { h with uv_index := u } sun
        tlo thi wlo whi rlo rhi
      = _score_hygiene_intervention h sun tlo thi wlo whi rlo rhi)
    ∧ (_score_character_development { h with uv_index := u } sun
        tlo thi wlo whi rlo rhi
      = _score_character_development h sun tlo thi wlo whi rlo rhi)
    ∧ (_score_low_battery_human { h with description := d } sun
        tlo thi wlo whi rlo rhi
      = _score_low_battery_human h sun tlo thi wlo whi rlo rhi)
    ∧ (_score_posture_emergency { h with description := d } sun
        tlo thi wlo whi rlo rhi
      = _score_posture_emergency h sun tlo thi wlo whi rlo rhi)
    ∧ (_score_doomscroll_detox { h with description := d } sun
        tlo thi wlo whi rlo rhi
      = _score_doomscroll_detox h sun tlo thi wlo whi rlo rhi)
    ∧ (_score_burnout_recovery { h with description := d } sun
        tlo thi wlo whi rlo rhi
      = _score_burnout_recovery h sun tlo thi wlo whi rlo rhi)
    ∧ (_score_long_term_health { h with description := d } sun
        tlo thi wlo whi rlo rhi
      = _score_long_term_health h sun tlo thi wlo whi rlo rhi)
    ∧ (_score_hygiene_intervention { h with description := d } sun
        tlo thi wlo whi rlo rhi
      = _score_hygiene_intervention h sun tlo thi wlo whi rlo rhi)
    ∧ (_score_character_development { h with description := d } sun
        tlo thi wlo whi rlo rhi
      = _score_character_development h sun tlo thi wlo whi rlo rhi) :=
  ⟨rfl, rfl, rfl, rfl, rfl, rfl, rfl, rfl, rfl, rfl, rfl, rfl, rfl⟩

/-- C4: for a registered mood and a batch with at least one safe hour,
pick_walk_window returns a non-fallback recommendation exactly when some
safe scored hour reaches the threshold 10 — equivalently, when the
maximal score is at least 10, so a top score of exactly 10 is already
non-fallback. -/
theorem C4_threshold (mood : String) (hours : List HourlyWeather)
    (sun : SunTimes) (dog human rel : String) (choice : Nat)
    (hreg : (DIAGNOSTIC_MOODS mood).isSome = true)
    (hsafe : ∃ h ∈ hours, _is_safe h = true) :
    (∃ r, pick_walk_window mood hours sun dog human rel choice =
        Except.ok r ∧ r.isFallback = false)
      ↔ ∃ sw ∈ safeScored mood hours sun, 10 ≤ sw.score := by
  obtain ⟨h0, hh0, hs0⟩ := hsafe
  obtain ⟨scorer, hs⟩ := Option.isSome_iff_exists.mp hreg
  have hne : hours ≠ [] := by rintro rfl; cases hh0
  obtain ⟨tlo, thi, ht, -⟩ := temp_range_some hne
  obtain ⟨wlo, whi, hw, -⟩ := wind_range_some hne
  obtain ⟨rlo, rhi, hr, -⟩ := rain_range_some hne
  have hssc := safeScored_eq sun hs ht hw hr
  obtain ⟨j, hj⟩ := List.mem_iff_get?.mp hh0
  have hmem0 : (⟨0 + j, h0, scorer h0 sun tlo thi wlo whi rlo rhi⟩ :
      ScoredWindow) ∈ safeScored mood hours sun := by
    rw [hssc]
    exact scoreSafeHoursFrom_complete scorer sun tlo thi wlo whi rlo rhi hours
      0 j h0 hj hs0
  have hlne : safeScored mood hours sun ≠ [] := by
    intro e; rw [e] at hmem0; cases hmem0
  obtain ⟨b, hb⟩ := chooseBest_isSome hlne
  have hsel : selectedWindow mood hours sun = some b := hb
  simp only [pick_cases sun dog human rel choice hs hne, hsel]
  by_cases h10 : b.score < 10
  · rw [if_pos h10]
    constructor
    · rintro ⟨r, hr2, hrf⟩
      injection hr2 with he
      rw [← he] at hrf
      simp [_fallback_response, Response.isFallback] at hrf
    · rintro ⟨sw, hsw, hsw10⟩
      exfalso
      have := chooseBest_le hb sw hsw
      linarith
  · rw [if_neg h10]
    constructor
    · rintro -
      exact ⟨b, chooseBest_mem hb, not_lt.mp h10⟩
    · intro _
      exact ⟨_, rfl, by simp [buildResponse, Response.isFallback]⟩

/-- Witness for C4: a single safe pleasant hour scoring at least 10 for
the mood low_battery. -/
theorem C4_threshold_witness :
    (DIAGNOSTIC_MOODS "low_battery").isSome = true
    ∧ (∃ h ∈ [W4hour], _is_safe h = true)
    ∧ ((∃ r, pick_walk_window "low_battery" [W4hour] sun0 "Rex" "Sam"
          "owner" 0 = Except.ok r ∧ r.isFallback = false)
        ↔ ∃ sw ∈ safeScored "low_battery" [W4hour] sun0, 10 ≤ sw.score) :=
  ⟨rfl,
    ⟨W4hour, by simp, by
      norm_num [_is_safe, W4hour, WIND_LIMIT_MS, RAIN_LIMIT_PCT,
        TEMP_LIMIT_MIN]⟩,
    C4_threshold "low_battery" [W4hour] sun0 "Rex" "Sam" "owner" 0 rfl
      ⟨W4hour, by simp, by
        norm_num [_is_safe, W4hour, WIND_LIMIT_MS, RAIN_LIMIT_PCT,
          TEMP_LIMIT_MIN]⟩⟩

/-- C6: when two safe scored hours attain the same maximal score, the
selector picks the earliest in forecast order among the equal maxima:
the chosen window sits at a position no later than the earlier tied one,
carries the maximal score, and every strictly earlier position scores
strictly less. -/
theorem C6_tie_break_first_wins (mood : String) (hours : List HourlyWeather)
    (sun : SunTimes) (i j : Nat) (swi swj : ScoredWindow)
    (hij : i < j)
    (hi : (safeScored mood hours sun).get? i = some swi)
    (hj : (safeScored mood hours sun).get? j = some swj)
    (heq : swi.score = swj.score)
    (hmax : ∀ sw ∈ safeScored mood hours sun, sw.score ≤ swi.score) :
    ∃ k swk, selectedWindow mood hours sun = some swk ∧
      (safeScored mood hours sun).get? k = some swk ∧
      swk.score = swi.score ∧ k ≤ i ∧
      ∀ m swm, m < k → (safeScored mood hours sun).get? m = some swm →
        swm.score < swk.score := by
  have hlne : safeScored mood hours sun ≠ [] := by
    intro e; rw [e] at hi; cases hi
  obtain ⟨b, hb⟩ := chooseBest_isSome hlne
  obtain ⟨l₁, l₂, hdec, hlt, hle⟩ := chooseBest_spec hb
  have hbi : b.score = swi.score :=
    le_antisymm (hmax b (chooseBest_mem hb)) (hle swi (List.get?_mem hi))
  refine ⟨l₁.length, b, hb, ?_, hbi, ?_, ?_⟩
  · rw [hdec, List.get?_append_right (le_refl l₁.length)]
    simp
  · by_contra hgt
    push_neg at hgt
    have hin : l₁.get? i = some swi := by
      rw [hdec] at hi
      rwa [List.get?_append hgt] at hi
    have := hlt swi (List.get?_mem hin)
    rw [hbi] at this
    exact lt_irrefl _ this
  · intro m swm hm hmth
    rw [hdec] at hmth
    rw [List.get?_append (lt_of_lt_of_le hm (le_refl _))] at hmth
    exact hlt swm (List.get?_mem hmth)

/-- Witness for C6: two safe hours with identical weather (score 50 for
character_development) at positions 0 and 1; the selector picks position
0. -/
theorem C6_tie_break_first_wins_witness :
    ((0 : Nat) < 1)
    ∧ (safeScored "character_development" C6hours sun0).get? 0
        = some ⟨0, C6hour1, 50⟩
    ∧ (safeScored "character_development" C6hours sun0).get? 1
        = some ⟨1, C6hour2, 50⟩
    ∧ (⟨0, C6hour1, 50⟩ : ScoredWindow).score
        = (⟨1, C6hour2, 50⟩ : ScoredWindow).score
    ∧ (∀ sw ∈ safeScored "character_development" C6hours sun0,
        sw.score ≤ (⟨0, C6hour1, 50⟩ : ScoredWindow).score)
    ∧ ∃ k swk, selectedWindow "character_development" C6hours sun0 = some swk ∧
        (safeScored "character_development" C6hours sun0).get? k = some swk ∧
        swk.score = (⟨0, C6hour1, 50⟩ : ScoredWindow).score ∧ k ≤ 0 ∧
        ∀ m swm, m < k →
          (safeScored "character_development" C6hours sun0).get? m = some swm →
          swm.score < swk.score := by
  have hget0 : (safeScored "character_development" C6hours sun0).get? 0
      = some ⟨0, C6hour1, 50⟩ := by
    norm_num [safeScored, scoreSafeHours, scoreSafeHoursFrom, DIAGNOSTIC_MOODS,
      _temp_range, _wind_range, _rain_range, listMin, listMax, _is_safe,
      WIND_LIMIT_MS, RAIN_LIMIT_PCT, TEMP_LIMIT_MIN,
      _score_character_development, _relative_position, pyMin, pyMax, pyAbs,
      _is_daylight, C6hours, C6hour1, C6hour2, sun0, List.get?]
  have hget1 : (safeScored "character_development" C6hours sun0).get? 1
      = some ⟨1, C6hour2, 50⟩ := by
    norm_num [safeScored, scoreSafeHours, scoreSafeHoursFrom, DIAGNOSTIC_MOODS,
      _temp_range, _wind_range, _rain_range, listMin, listMax, _is_safe,
      WIND_LIMIT_MS, RAIN_LIMIT_PCT, TEMP_LIMIT_MIN,
      _score_character_development, _relative_position, pyMin, pyMax, pyAbs,
      _is_daylight, C6hours, C6hour1, C6hour2, sun0, List.get?]
  have hmax : ∀ sw ∈ safeScored "character_development" C6hours sun0,
      sw.score ≤ (⟨0, C6hour1, 50⟩ : ScoredWindow).score := by
    norm_num [safeScored, scoreSafeHours, scoreSafeHoursFrom, DIAGNOSTIC_MOODS,
      _temp_range, _wind_range, _rain_range, listMin, listMax, _is_safe,
      WIND_LIMIT_MS, RAIN_LIMIT_PCT, TEMP_LIMIT_MIN,
      _score_character_development, _relative_position, pyMin, pyMax, pyAbs,
      _is_daylight, C6hours, C6hour1, C6hour2, sun0]
  exact ⟨by norm_num, hget0, hget1, rfl, hmax,
    C6_tie_break_first_wins "character_development" C6hours sun0 0 1
      ⟨0, C6hour1, 50⟩ ⟨1, C6hour2, 50⟩ (by norm_num) hget0 hget1 rfl hmax⟩

/-- The recommended time of a pick_walk_window call, expressed through
the selection: the timestamp of the selected window when its score
reaches 10, and nothing otherwise (error or fallback). -/
theorem selTime_pick (mood : String) (hours : List HourlyWeather)
    (sun : SunTimes) (d hu rel : String) (ch : Nat) :
    selTime (pick_walk_window mood hours sun d hu rel ch)
      = (selectedWindow mood hours sun).bind
          (fun b => if b.score < 10 then none else some b.hour.dt) := by
  cases hmood : DIAGNOSTIC_MOODS mood with
  | none =>
    simp [pick_walk_window, hmood, selTime, selectedWindow, safeScored,
      chooseBest]
  | some scorer =>
    cases hours with
    | nil =>
      simp [pick_walk_window, hmood, selTime, selectedWindow, safeScored,
        _temp_range, _wind_range, _rain_range, listMin, listMax, chooseBest]
    | cons a t =>
      have hne : (a :: t) ≠ ([] : List HourlyWeather) := by simp
      rw [pick_cases sun d hu rel ch hmood hne]
      cases hsel : selectedWindow mood (a :: t) sun with
      | none => simp [selTime, _fallback_response]
      | some b =>
        by_cases h10 : b.score < 10
        · simp [selTime, h10, _fallback_response]
        · simp [selTime, h10, buildResponse]

/-- Counterexample for C5: on the two-hour batch [C5hourA, C5hourB] the
mood character_development selects hour A (timestamp 10), but after
shifting every temperature by -6 hour A crosses the absolute -30 safety
cutoff and hour B (timestamp 11) is selected instead: a constant
temperature shift changes which hour is selected. -/
theorem C5_counterexample :
    selTime (pick_walk_window "character_development" C5hours sun0
        "Rex" "Sam" "owner" 0) = some 10
    ∧ selTime (pick_walk_window "character_development"
        (shiftHours (-6) C5hours) sun0 "Rex" "Sam" "owner" 0) = some 11
    ∧ (10 : Int) ≠ 11 := by
  refine ⟨?_, ?_, by norm_num⟩ <;>
    norm_num [selTime, pick_walk_window, selectedWindow, safeScored,
      scoreSafeHours, scoreSafeHoursFrom, DIAGNOSTIC_MOODS, _temp_range,
      _wind_range, _rain_range, listMin, listMax, _is_safe, WIND_LIMIT_MS,
      RAIN_LIMIT_PCT, TEMP_LIMIT_MIN, _score_character_development,
      _relative_position, pyMin, pyMax, pyAbs, chooseBest, bestStep,
      _is_daylight, buildResponse, C5hours, C5hourA, C5hourB, sun0,
      shiftHours]

/-- C5 amended: a constant temperature shift that preserves every hour's
safety classification (temperature side of the absolute cutoff unchanged)
changes neither which forecast position low_battery selects nor which one
character_development selects, and leaves the recommended time of
pick_walk_window unchanged for both moods. -/
theorem C5_amended_climate_invariance (hours : List HourlyWeather)
    (sun : SunTimes) (c : ℚ)
    (hpres : ∀ h ∈ hours,
      (TEMP_LIMIT_MIN < h.temp ↔ TEMP_LIMIT_MIN < h.temp + c)) :
    ((selectedWindow "low_battery" (shiftHours c hours) sun).map
        (fun sw => sw.idx)
      = (selectedWindow "low_battery" hours sun).map (fun sw => sw.idx))
    ∧ ((selectedWindow "character_development" (shiftHours c hours) sun).map
        (fun sw => sw.idx)
      = (selectedWindow "character_development" hours sun).map
          (fun sw => sw.idx))
    ∧ ∀ dog human rel : String, ∀ choice : Nat,
      (selTime (pick_walk_window "low_battery" (shiftHours c hours) sun
            dog human rel choice)
        = selTime (pick_walk_window "low_battery" hours sun
            dog human rel choice))
      ∧ (selTime (pick_walk_window "character_development"
            (shiftHours c hours) sun dog human rel choice)
        = selTime (pick_walk_window "character_development" hours sun
            dog human rel choice)) := by
  have hsafe_pres : ∀ h ∈ hours,
      _is_safe { h with temp := h.temp + c } = _is_safe h := by
    intro h hh
    have hdec : decide (h.temp + c > TEMP_LIMIT_MIN)
        = decide (h.temp > TEMP_LIMIT_MIN) :=
      decide_eq_decide.mpr (hpres h hh).symm
    simp only [_is_safe]
    rw [hdec]
  have hlb := selectedWindow_shift hours sun c
    (rfl : DIAGNOSTIC_MOODS "low_battery" = some _score_low_battery_human)
    hsafe_pres
    (fun tlo thi wlo whi rlo rhi h _ =>
      lb_score_shift h sun tlo thi wlo whi rlo rhi c)
  have hcd := selectedWindow_shift hours sun c
    (rfl : DIAGNOSTIC_MOODS "character_development"
      = some _score_character_development)
    hsafe_pres
    (fun tlo thi wlo whi rlo rhi h hh =>
      cd_score_shift h sun tlo thi wlo whi rlo rhi c (hsafe_pres h hh))
  refine ⟨?_, ?_, ?_⟩
  · rw [hlb]
    cases selectedWindow "low_battery" hours sun <;> rfl
  · rw [hcd]
    cases selectedWindow "character_development" hours sun <;> rfl
  · intro dog human rel choice
    constructor
    · rw [selTime_pick, selTime_pick, hlb]
      cases selectedWindow "low_battery" hours sun <;> rfl
    · rw [selTime_pick, selTime_pick, hcd]
      cases selectedWindow "character_development" hours sun <;> rfl

/-- Counterexample for C8: in the batch [C8h1, C8h2, C8h3] the safe hour
C8h1 is strictly the coldest, windiest and wettest, yet the fully
overcast hour C8h2 scores higher for character_development (cloud cover
contributes its own term) and is selected: the recommended time is 21,
the timestamp of C8h2, not 20, the timestamp of C8h1. -/
theorem C8_counterexample :
    _is_safe C8h1 = true
    ∧ (∀ h ∈ C8hours, C8h1.temp ≤ h.temp ∧ h.wind_speed ≤ C8h1.wind_speed ∧
        h.rain_prob ≤ C8h1.rain_prob)
    ∧ selTime (pick_walk_window "character_development" C8hours sun0
        "Rex" "Sam" "owner" 0) = some 21
    ∧ C8h1.dt = 20
    ∧ (21 : Int) ≠ 20 := by
  refine ⟨?_, ?_, ?_, rfl, by norm_num⟩
  · norm_num [_is_safe, C8h1, WIND_LIMIT_MS, RAIN_LIMIT_PCT, TEMP_LIMIT_MIN]
  · norm_num [C8hours, C8h1, C8h2, C8h3]
  · norm_num [selTime, pick_walk_window, selectedWindow, safeScored,
      scoreSafeHours, scoreSafeHoursFrom, DIAGNOSTIC_MOODS, _temp_range,
      _wind_range, _rain_range, listMin, listMax, _is_safe, WIND_LIMIT_MS,
      RAIN_LIMIT_PCT, TEMP_LIMIT_MIN, _score_character_development,
      _relative_position, pyMin, pyMax, pyAbs, chooseBest, bestStep,
      _is_daylight, buildResponse, C8hours, C8h1, C8h2, C8h3, sun0]

/-- C8 amended: if the forecast batch has cloud covers within [0, 100]
and exactly one safe hour simultaneously attains the batch minimum
temperature and the batch maxima of wind speed, rain probability AND
cloud cover, then character_development selects exactly that hour and
pick_walk_window returns a non-fallback recommendation at its
timestamp. -/
theorem C8_amended_all_extremes (hours : List HourlyWeather) (sun : SunTimes)
    (i : Nat) (hstar : HourlyWeather) (dog human rel : String) (choice : Nat)
    (hcloud : ∀ h ∈ hours, 0 ≤ h.cloud_cover ∧ h.cloud_cover ≤ 100)
    (hi : hours.get? i = some hstar)
    (hsafe : _is_safe hstar = true)
    (hext : ∀ h ∈ hours, hstar.temp ≤ h.temp ∧ h.wind_speed ≤ hstar.wind_speed
        ∧ h.rain_prob ≤ hstar.rain_prob ∧ h.cloud_cover ≤ hstar.cloud_cover)
    (huniq : ∀ j hj, hours.get? j = some hj → _is_safe hj = true →
      (∀ h ∈ hours, hj.temp ≤ h.temp ∧ h.wind_speed ≤ hj.wind_speed
        ∧ h.rain_prob ≤ hj.rain_prob ∧ h.cloud_cover ≤ hj.cloud_cover) →
      j = i) :
    (selectedWindow "character_development" hours sun).map
        (fun sw => (sw.idx, sw.hour)) = some (i, hstar)
    ∧ ∃ r, pick_walk_window "character_development" hours sun dog human rel
          choice = Except.ok r
        ∧ r.isFallback = false ∧ r.recommended_time = some hstar.dt := by
  have hmem : hstar ∈ hours := List.get?_mem hi
  have hne : hours ≠ [] := by rintro rfl; cases hmem
  obtain ⟨tlo, thi, ht, htb⟩ := temp_range_some hne
  obtain ⟨wlo, whi, hw, hwb⟩ := wind_range_some hne
  obtain ⟨rlo, rhi, hr, hrb⟩ := rain_range_some hne
  have htlo : tlo = hstar.temp := by
    have h1 : listMin (hours.map (·.temp)) = some hstar.temp := by
      apply listMin_attained (List.mem_map_of_mem _ hmem)
      intro x hx
      obtain ⟨h2, hh2, rfl⟩ := List.mem_map.mp hx
      exact (hext h2 hh2).1
    have h2 := (temp_range_fst ht).1
    rw [h1] at h2
    exact (Option.some.inj h2).symm
  have hwhi : whi = hstar.wind_speed := by
    have h1 : listMax (hours.map (·.wind_speed)) = some hstar.wind_speed := by
      apply listMax_attained (List.mem_map_of_mem _ hmem)
      intro x hx
      obtain ⟨h2, hh2, rfl⟩ := List.mem_map.mp hx
      exact (hext h2 hh2).2.1
    have h2 := (wind_range_fst hw).2
    rw [h1] at h2
    exact (Option.some.inj h2).symm
  have hrhi : rhi = hstar.rain_prob := by
    have h1 : listMax (hours.map (·.rain_prob)) = some hstar.rain_prob := by
      apply listMax_attained (List.mem_map_of_mem _ hmem)
      intro x hx
      obtain ⟨h2, hh2, rfl⟩ := List.mem_map.mp hx
      exact (hext h2 hh2).2.2.1
    have h2 := (rain_range_fst hr).2
    rw [h1] at h2
    exact (Option.some.inj h2).symm
  have htlh : tlo ≤ thi := le_trans (htb hstar hmem).1 (htb hstar hmem).2
  have hwlh : wlo ≤ whi := le_trans (hwb hstar hmem).1 (hwb hstar hmem).2
  have hrlh : rlo ≤ rhi := le_trans (hrb hstar hmem).1 (hrb hstar hmem).2
  have hsw : 1 / 2 ≤ _relative_position hstar.wind_speed wlo whi := by
    rw [← hwhi]
    exact rp_at_max_ge_half hwlh
  have hst : _relative_position hstar.temp tlo thi ≤ 1 / 2 := by
    rw [← htlo]
    exact rp_at_min_le_half htlh
  have hsr : 1 / 2 ≤ _relative_position hstar.rain_prob rlo rhi := by
    rw [← hrhi]
    exact rp_at_max_ge_half hrlh
  have hcomp : ∀ e ∈ hours, _is_safe e = true →
      _score_character_development e sun tlo thi wlo whi rlo rhi ≤
          _score_character_development hstar sun tlo thi wlo whi rlo rhi
      ∧ (_score_character_development e sun tlo thi wlo whi rlo rhi =
            _score_character_development hstar sun tlo thi wlo whi rlo rhi →
          _relative_position e.wind_speed wlo whi =
              _relative_position hstar.wind_speed wlo whi
          ∧ _relative_position e.temp tlo thi =
              _relative_position hstar.temp tlo thi
          ∧ _relative_position e.rain_prob rlo rhi =
              _relative_position hstar.rain_prob rlo rhi
          ∧ _relative_position e.cloud_cover 0 100 =
              _relative_position hstar.cloud_cover 0 100) := by
    intro e he hse
    apply cd_score_analysis sun tlo thi wlo whi rlo rhi e hstar hse hsafe
    · rw [← hwhi]
      exact rp_mono hwlh (hwb e he).2
    · rw [← htlo]
      exact rp_mono htlh (htb e he).1
    · rw [← hrhi]
      exact rp_mono hrlh (hrb e he).2
    · exact rp_mono (by norm_num) (hext e he).2.2.2
    · exact hsw
    · exact hst
    · exact hsr
  have hmood : DIAGNOSTIC_MOODS "character_development"
      = some _score_character_development := rfl
  have hssc := safeScored_eq sun hmood ht hw hr
  have hstar_in : (⟨i, hstar,
      _score_character_development hstar sun tlo thi wlo whi rlo rhi⟩ :
      ScoredWindow) ∈ safeScored "character_development" hours sun := by
    rw [hssc]
    have := scoreSafeHoursFrom_complete _score_character_development sun
      tlo thi wlo whi rlo rhi hours 0 i hstar hi hsafe
    simpa [scoreSafeHours] using this
  have hlne : safeScored "character_development" hours sun ≠ [] := by
    intro e; rw [e] at hstar_in; cases hstar_in
  obtain ⟨b, hb⟩ := chooseBest_isSome hlne
  have hbmem : b ∈ safeScored "character_development" hours sun :=
    chooseBest_mem hb
  have hbs := scoreSafeHoursFrom_sound _score_character_development sun
    tlo thi wlo whi rlo rhi hours 0 b
    (by rw [hssc] at hbmem; simpa [scoreSafeHours] using hbmem)
  obtain ⟨-, hbget, hbsafe, hbscore⟩ := hbs
  rw [Nat.sub_zero] at hbget
  have hbhour_mem : b.hour ∈ hours := List.get?_mem hbget
  have h1 : _score_character_development hstar sun tlo thi wlo whi rlo rhi
      ≤ b.score := by
    have := chooseBest_le hb _ hstar_in
    simpa using this
  have h2 : b.score ≤
      _score_character_development hstar sun tlo thi wlo whi rlo rhi := by
    rw [hbscore]
    exact (hcomp b.hour hbhour_mem hbsafe).1
  have hbeq : b.score =
      _score_character_development hstar sun tlo thi wlo whi rlo rhi :=
    le_antisymm h2 h1
  obtain ⟨he_w, he_t, he_r, he_c⟩ :=
    (hcomp b.hour hbhour_mem hbsafe).2 (by rw [← hbscore]; exact hbeq)
  have hbw : b.hour.wind_speed = whi := by
    apply rp_eq_hi_imp (hwb b.hour hbhour_mem).1 (hwb b.hour hbhour_mem).2
    rw [he_w, hwhi]
  have hbt : b.hour.temp = tlo := by
    apply rp_eq_lo_imp (htb b.hour hbhour_mem).1 (htb b.hour hbhour_mem).2
    rw [he_t, htlo]
  have hbr : b.hour.rain_prob = rhi := by
    apply rp_eq_hi_imp (hrb b.hour hbhour_mem).1 (hrb b.hour hbhour_mem).2
    rw [he_r, hrhi]
  have hbc : b.hour.cloud_cover = hstar.cloud_cover := by
    have hc1 := hcloud b.hour hbhour_mem
    have hc2 := hcloud hstar hmem
    rw [rp_unit_interval hc1.1 hc1.2, rp_unit_interval hc2.1 hc2.2] at he_c
    have h100 : (0 : ℚ) < 100 := by norm_num
    field_simp at he_c
    exact he_c
  have hbext : ∀ h2 ∈ hours, b.hour.temp ≤ h2.temp
      ∧ h2.wind_speed ≤ b.hour.wind_speed ∧ h2.rain_prob ≤ b.hour.rain_prob
      ∧ h2.cloud_cover ≤ b.hour.cloud_cover := by
    intro h2 hh2
    rw [hbt, hbw, hbr, hbc]
    exact ⟨(htb h2 hh2).1, (hwb h2 hh2).2, (hrb h2 hh2).2,
      (hext h2 hh2).2.2.2⟩
  have hbidx : b.idx = i := huniq b.idx b.hour hbget hbsafe hbext
  have hbhour : b.hour = hstar := by
    rw [hbidx, hi] at hbget
    exact (Option.some.inj hbget).symm
  have hsel : selectedWindow "character_development" hours sun = some b := hb
  have hscore10 : ¬b.score < 10 := by
    rw [hbeq]
    push_neg
    exact cd_score_lower sun tlo thi wlo whi rlo rhi hstar hsafe hsw hst hsr
  constructor
  · rw [hsel]
    simp [hbidx, hbhour]
  · refine ⟨buildResponse "character_development" b.hour dog human rel,
      ?_, ?_, ?_⟩
    · simp only [pick_cases sun dog human rel choice hmood hne, hsel,
        if_neg hscore10]
    · simp [buildResponse, Response.isFallback]
    · simp [buildResponse, hbhour]

/-- Witness for C8 amended: in the batch [W8h1, W8h2] the hour W8h1 is
the unique safe hour attaining all four extremes and is selected. -/
theorem C8_amended_all_extremes_witness :
    (∀ h ∈ W8hours, 0 ≤ h.cloud_cover ∧ h.cloud_cover ≤ 100)
    ∧ W8hours.get? 0 = some W8h1
    ∧ _is_safe W8h1 = true
    ∧ (∀ h ∈ W8hours, W8h1.temp ≤ h.temp ∧ h.wind_speed ≤ W8h1.wind_speed
        ∧ h.rain_prob ≤ W8h1.rain_prob ∧ h.cloud_cover ≤ W8h1.cloud_cover)
    ∧ ((selectedWindow "character_development" W8hours sun0).map
          (fun sw => (sw.idx, sw.hour)) = some (0, W8h1)
      ∧ ∃ r, pick_walk_window "character_development" W8hours sun0
            "Rex" "Sam" "owner" 0 = Except.ok r
          ∧ r.isFallback = false ∧ r.recommended_time = some W8h1.dt) := by
  have hc : ∀ h ∈ W8hours, 0 ≤ h.cloud_cover ∧ h.cloud_cover ≤ 100 := by
    norm_num [W8hours, W8h1, W8h2]
  have hg : W8hours.get? 0 = some W8h1 := rfl
  have hsafe : _is_safe W8h1 = true := by
    norm_num [_is_safe, W8h1, WIND_LIMIT_MS, RAIN_LIMIT_PCT, TEMP_LIMIT_MIN]
  have hext : ∀ h ∈ W8hours, W8h1.temp ≤ h.temp
      ∧ h.wind_speed ≤ W8h1.wind_speed ∧ h.rain_prob ≤ W8h1.rain_prob
      ∧ h.cloud_cover ≤ W8h1.cloud_cover := by
    norm_num [W8hours, W8h1, W8h2]
  have huniq : ∀ j hj, W8hours.get? j = some hj → _is_safe hj = true →
      (∀ h ∈ W8hours, hj.temp ≤ h.temp ∧ h.wind_speed ≤ hj.wind_speed
        ∧ h.rain_prob ≤ hj.rain_prob ∧ h.cloud_cover ≤ hj.cloud_cover) →
      j = 0 := by
    intro j hj hget hs hext2
    rcases j with _ | j
    · rfl
    · rcases j with _ | n
      · exfalso
        have hjq : hj = W8h2 := by
          simp only [W8hours, List.get?] at hget
          exact (Option.some.inj hget).symm
        subst hjq
        have := (hext2 W8h1 (by simp [W8hours])).1
        norm_num [W8h1, W8h2] at this
      · exfalso
        simp only [W8hours, List.get?] at hget
        cases hget
  exact ⟨hc, hg, hsafe, hext,
    C8_amended_all_extremes W8hours sun0 0 W8h1 "Rex" "Sam" "owner" 0
      hc hg hsafe hext huniq⟩

/-- Witness for C5 amended: shifting the batch C6hours by +1 preserves
every safety classification and leaves both selections unchanged. -/
theorem C5_amended_climate_invariance_witness :
    (∀ h ∈ C6hours, (TEMP_LIMIT_MIN < h.temp ↔ TEMP_LIMIT_MIN < h.temp + 1))
    ∧ ((selectedWindow "low_battery" (shiftHours 1 C6hours) sun0).map
        (fun sw => sw.idx)
      = (selectedWindow "low_battery" C6hours sun0).map (fun sw => sw.idx))
    ∧ ((selectedWindow "character_development" (shiftHours 1 C6hours)
          sun0).map (fun sw => sw.idx)
      = (selectedWindow "character_development" C6hours sun0).map
          (fun sw => sw.idx))
    ∧ selTime (pick_walk_window "character_development" (shiftHours 1 C6hours)
          sun0 "Rex" "Sam" "owner" 0)
      = selTime (pick_walk_window "character_development" C6hours sun0
          "Rex" "Sam" "owner" 0) := by
  have hp : ∀ h ∈ C6hours,
      (TEMP_LIMIT_MIN < h.temp ↔ TEMP_LIMIT_MIN < h.temp + 1) := by
    norm_num [C6hours, C6hour1, C6hour2, TEMP_LIMIT_MIN]
  have happ := C5_amended_climate_invariance C6hours sun0 1 hp
  exact ⟨hp, happ.1, happ.2.1, (happ.2.2 "Rex" "Sam" "owner" 0).2⟩
